import Mathlib

/-!
# kiwano-go-demos: the two scene programs over an explicit graphics driver

The two demos (`helloworld/main.go`, `texture/main.go`) are straight-line
sequences of driver calls.  The driver is embedded as a state holding the set
of live object names (tagged with the kind of object, because every kind has
its own name space) and the list of calls received so far, in order.  Each
`gl.X(...)` line of the source becomes one transition of that state.

Go `float32`/`float64` values are idealised as elements of a field: the vertex
data as rationals (every literal of the source is exactly representable), the
per-frame colour over an arbitrary field with the sine function as an argument.
Go `int` is taken to be 64 bits wide.
-/

namespace gl

/-- The kinds of driver object; names of different kinds never clash. -/
inductive Kind where
  | vertexArray
  | buffer
  | texture
  | shader
  | program
deriving DecidableEq, Repr

/-- A driver object: a kind together with the numeric name the driver gave it. -/
structure Handle where
  kind : Kind
  name : Nat
deriving DecidableEq, Repr

inductive BufferTarget where
  | ARRAY_BUFFER
  | ELEMENT_ARRAY_BUFFER
deriving DecidableEq, Repr

inductive Usage where
  | STATIC_DRAW
deriving DecidableEq, Repr

inductive DataType where
  | FLOAT
  | UNSIGNED_INT
  | UNSIGNED_BYTE
deriving DecidableEq, Repr

inductive Mode where
  | TRIANGLES
deriving DecidableEq, Repr

inductive TextureTarget where
  | TEXTURE_2D
deriving DecidableEq, Repr

inductive TextureUnit where
  | TEXTURE0
deriving DecidableEq, Repr

inductive TexParam where
  | TEXTURE_MIN_FILTER
  | TEXTURE_MAG_FILTER
  | TEXTURE_WRAP_S
  | TEXTURE_WRAP_T
deriving DecidableEq, Repr

inductive TexValue where
  | LINEAR
  | CLAMP_TO_EDGE
deriving DecidableEq, Repr

inductive PixelFormat where
  | RGBA
deriving DecidableEq, Repr

/-- The client memory handed to `gl.BufferData` through `gl.Ptr`. -/
inductive Data where
  | float32s (values : List ℚ)
  | uint32s (values : List Nat)
deriving DecidableEq, Repr

/-- One driver call with the arguments the program passed.  For the `Gen*`
calls the argument is the name the driver wrote back. -/
inductive Call (α : Type) where
  | GenVertexArrays (array : Nat)
  | BindVertexArray (array : Nat)
  | GenBuffers (buffer : Nat)
  | BindBuffer (target : BufferTarget) (buffer : Nat)
  | BufferData (target : BufferTarget) (size : Nat) (data : Data) (usage : Usage)
  | VertexAttribPointer (index : Nat) (size : Nat) (xtype : DataType) (normalized : Bool)
      (stride : Nat) (pointer : Nat)
  | EnableVertexAttribArray (index : Nat)
  | GetUniformLocation (program : Nat) (name : String)
  | UseProgram (program : Nat)
  | Uniform4f (location : Int) (v0 v1 v2 v3 : α)
  | DrawElements (mode : Mode) (count : Nat) (xtype : DataType) (indices : Nat)
  | DeleteVertexArrays (array : Nat)
  | DeleteBuffers (buffer : Nat)
  | GenTextures (texture : Nat)
  | ActiveTexture (unit : TextureUnit)
  | BindTexture (target : TextureTarget) (texture : Nat)
  | TexParameteri (target : TextureTarget) (pname : TexParam) (param : TexValue)
  | TexImage2D (target : TextureTarget) (level : Int) (internalformat : PixelFormat)
      (width height : Int) (border : Int) (format : PixelFormat) (xtype : DataType)
      (pixels : List Nat)
  | GenerateMipmap (target : TextureTarget)

/-- The graphics driver.  `fresh` is the driver's naming policy (the name it
hands out for a kind, given what is live), `uniformLocation` its answer to a
uniform lookup; `live` is the set of objects that exist and `calls` the calls
received so far, oldest first. -/
structure Driver (α : Type) where
  fresh : Kind → List Handle → Nat
  uniformLocation : Nat → String → Int
  live : List Handle
  calls : List (Call α)

variable {α : Type}

/-- Record a call that creates and deletes nothing. -/
def Driver.emit (d : Driver α) (c : Call α) : Driver α :=
  { d with calls := d.calls ++ [c] }

/-- Create one object of kind `k`: the driver picks the name. -/
def Driver.gen (d : Driver α) (k : Kind) (c : Nat → Call α) : Nat × Driver α :=
  let n := d.fresh k d.live
  (n, { d with live := ⟨k, n⟩ :: d.live, calls := d.calls ++ [c n] })

/-- Delete the object of kind `k` named `n`; a name that is not live is ignored. -/
def Driver.delete (d : Driver α) (k : Kind) (n : Nat) (c : Call α) : Driver α :=
  { d with live := d.live.filter (fun h => decide (h ≠ ⟨k, n⟩)), calls := d.calls ++ [c] }

def GenVertexArrays (d : Driver α) : Nat × Driver α :=
  d.gen Kind.vertexArray Call.GenVertexArrays

def GenBuffers (d : Driver α) : Nat × Driver α :=
  d.gen Kind.buffer Call.GenBuffers

def GenTextures (d : Driver α) : Nat × Driver α :=
  d.gen Kind.texture Call.GenTextures

def DeleteVertexArrays (d : Driver α) (n : Nat) : Driver α :=
  d.delete Kind.vertexArray n (Call.DeleteVertexArrays n)

def DeleteBuffers (d : Driver α) (n : Nat) : Driver α :=
  d.delete Kind.buffer n (Call.DeleteBuffers n)

def GetUniformLocation (d : Driver α) (program : Nat) (name : String) : Int × Driver α :=
  (d.uniformLocation program name, d.emit (Call.GetUniformLocation program name))

/-- A naming policy that never reuses a live name: one more than the largest
live name of the kind. -/
def nextName (k : Kind) (live : List Handle) : Nat :=
  ((live.filter (fun h => decide (h.kind = k))).map Handle.name).foldr max 0 + 1

/-- A driver with nothing live and no call received. -/
def Driver.start (α : Type) : Driver α :=
  { fresh := nextName, uniformLocation := fun _ _ => 0, live := [], calls := [] }

/-- The driver never hands out a live name, nor the reserved name 0. -/
def Driver.Fresh (d : Driver α) : Prop :=
  ∀ k l, (⟨k, d.fresh k l⟩ : Handle) ∉ l ∧ d.fresh k l ≠ 0

/-- The objects created by a sequence of calls, in order of creation. -/
def generated : List (Call α) → List Handle
  | [] => []
  | Call.GenVertexArrays n :: cs => ⟨Kind.vertexArray, n⟩ :: generated cs
  | Call.GenBuffers n :: cs => ⟨Kind.buffer, n⟩ :: generated cs
  | Call.GenTextures n :: cs => ⟨Kind.texture, n⟩ :: generated cs
  | _ :: cs => generated cs

/-- One declared vertex attribute: index, component count, stride and byte offset. -/
structure Attrib where
  index : Nat
  size : Nat
  stride : Nat
  offset : Nat
deriving DecidableEq, Repr

/-- The float attributes declared by a sequence of calls, in order. -/
def attribs : List (Call α) → List Attrib
  | [] => []
  | Call.VertexAttribPointer i n DataType.FLOAT _ s p :: cs => ⟨i, n, s, p⟩ :: attribs cs
  | _ :: cs => attribs cs

/-- The byte sizes of the uploads to a buffer target, in order. -/
def uploadSizes (t : BufferTarget) : List (Call α) → List Nat
  | [] => []
  | Call.BufferData t1 n _ _ :: cs =>
      if t1 = t then n :: uploadSizes t cs else uploadSizes t cs
  | _ :: cs => uploadSizes t cs

/-- The index lists uploaded to the element-array target, in order. -/
def uploadedIndices : List (Call α) → List (List Nat)
  | [] => []
  | Call.BufferData BufferTarget.ELEMENT_ARRAY_BUFFER _ (Data.uint32s l) _ :: cs =>
      l :: uploadedIndices cs
  | _ :: cs => uploadedIndices cs

/-- Bytes occupied by a float attribute inside one vertex: `[offset, offset + 4*size)`. -/
def Attrib.stop (a : Attrib) : Nat := a.offset + 4 * a.size

end gl

/-- The program object wrapper `render.Shader` of the engine: the demos use its
`ID` field and its `Use` method. -/
structure Shader where
  ID : Nat
deriving DecidableEq, Repr

/-- The method `Shader.Use` of the engine: makes the program current. -/
def Shader.Use {α : Type} (s : Shader) (d : gl.Driver α) : gl.Driver α :=
  d.emit (gl.Call.UseProgram s.ID)

namespace Helloworld

open gl

def vertexShaderSource : String :=
  "\n#version 330 core\nlayout (location = 0) in vec3 aPos;\nlayout (location = 1) in vec3 aColor;\n\nout vec3 ourColor;\n\nvoid main()\n\x7b\n\tgl_Position = vec4(aPos.x, aPos.y, aPos.z, 1.0);\n\tourColor = aColor;\n\x7d\n"

def fragmentShaderSource : String :=
  "\n#version 330 core\nin vec3 ourColor;\nout vec4 FragColor;\n\nvoid main()\n\x7b\n    FragColor = vec4(ourColor, 1.0);\n\x7d\n"

def vertices : List ℚ := [
  0.5, -0.5, 0.0, 1.0, 0.0, 0.0,
  -0.5, -0.5, 0.0, 0.0, 1.0, 0.0,
  0.0, 0.5, 0.0, 0.0, 0.0, 1.0]

def indices : List Nat := [
  0, 1, 3,
  1, 2, 3]

structure MainScene where
  VAO : Nat
  VBO : Nat
  EBO : Nat
  shader : Option Shader
deriving DecidableEq, Repr

/-- The scene `&MainScene{}` handed to the engine: every field zero. -/
def MainScene.zero : MainScene := ⟨0, 0, 0, none⟩

variable {α : Type}

/-- `MainScene.OnEnter`.  `createShader` is the engine's `render.CreateShader`;
an error from it ends the process (`log.Fatalln`) before any driver call. -/
def OnEnter (createShader : String → String → Except String Shader)
    (s : MainScene) (d : Driver α) : Except String MainScene × Driver α :=
  match createShader vertexShaderSource fragmentShaderSource with
  | Except.error err => (Except.error err, d)
  | Except.ok sh =>
    let s := { s with shader := some sh }
    let (vao, d) := GenVertexArrays d
    let s := { s with VAO := vao }
    let d := d.emit (Call.BindVertexArray s.VAO)
    let (vbo, d) := GenBuffers d
    let s := { s with VBO := vbo }
    let d := d.emit (Call.BindBuffer BufferTarget.ARRAY_BUFFER s.VBO)
    let d := d.emit (Call.BufferData BufferTarget.ARRAY_BUFFER (4 * vertices.length)
      (Data.float32s vertices) Usage.STATIC_DRAW)
    let (ebo, d) := GenBuffers d
    let s := { s with EBO := ebo }
    let d := d.emit (Call.BindBuffer BufferTarget.ELEMENT_ARRAY_BUFFER s.EBO)
    let d := d.emit (Call.BufferData BufferTarget.ELEMENT_ARRAY_BUFFER (4 * indices.length)
      (Data.uint32s indices) Usage.STATIC_DRAW)
    let d := d.emit (Call.VertexAttribPointer 0 3 DataType.FLOAT false (6 * 4) 0)
    let d := d.emit (Call.EnableVertexAttribArray 0)
    let d := d.emit (Call.VertexAttribPointer 1 3 DataType.FLOAT false (6 * 4) (3 * 4))
    let d := d.emit (Call.EnableVertexAttribArray 1)
    (Except.ok s, d)

/-- What one frame reads from the window: the state of the escape key and the
clock (`glfw.GetTime`). -/
structure Frame (α : Type) where
  escapePressed : Bool
  time : α

/-- The driver together with the window's close request flag. -/
structure World (α : Type) where
  gl : Driver α
  shouldClose : Bool

/-- `MainScene.OnUpdate`.  `sin` is `math.Sin`; a nil `shader` is a nil
dereference at `s.shader.ID`. -/
def OnUpdate [DivisionRing α] (sin : α → α) (s : MainScene) (_dt : Int) (f : Frame α)
    (w : World α) : Except String (World α) :=
  let shouldClose := if f.escapePressed then true else w.shouldClose
  let timeValue := f.time
  let greenValue := (sin timeValue / 2.0) + 0.5
  match s.shader with
  | none => Except.error "invalid memory address or nil pointer dereference"
  | some sh =>
    let (vertexColorLocation, d) := GetUniformLocation w.gl sh.ID "ourColor\x00"
    let d := sh.Use d
    let d := d.emit (Call.Uniform4f vertexColorLocation 0.0 greenValue 0.0 1.0)
    let d := d.emit (Call.DrawElements Mode.TRIANGLES 6 DataType.UNSIGNED_INT 0)
    Except.ok { gl := d, shouldClose := shouldClose }

/-- `MainScene.OnExit`. -/
def OnExit (s : MainScene) (d : Driver α) : Driver α :=
  let d := DeleteVertexArrays d s.VAO
  let d := DeleteBuffers d s.VBO
  d

/-- Number of vertices in the uploaded vertex data, at 6 floats per vertex. -/
def vertexCount : Nat := vertices.length / 6

end Helloworld

/-- How a Go call ends: it returns a value or it panics. -/
inductive Outcome (β : Type) where
  | returned (value : β)
  | panicked (msg : String)
deriving DecidableEq, Repr

namespace Go

/-- Go `int` arithmetic wraps at 64 bits: the representative in `[-2^63, 2^63)`. -/
def int (x : Int) : Int := (x + 2 ^ 63) % 2 ^ 64 - 2 ^ 63

/-- The conversion `int32(x)`. -/
def int32 (x : Int) : Int := (x + 2 ^ 31) % 2 ^ 32 - 2 ^ 31

def add (a b : Int) : Int := int (a + b)

def sub (a b : Int) : Int := int (a - b)

def mul (a b : Int) : Int := int (a * b)

end Go

namespace color

/-- What `Color.RGBA()` returns: four alpha-premultiplied channels, each a
`uint32` in `[0, 0xffff]`. -/
structure Color where
  r : Nat
  g : Nat
  b : Nat
  a : Nat
deriving DecidableEq, Repr

/-- The type `color.RGBA`: four 8-bit channels. -/
structure RGBA where
  R : Nat
  G : Nat
  B : Nat
  A : Nat
deriving DecidableEq, Repr

/-- The conversion `uint8(x)`. -/
def uint8 (x : Nat) : Nat := x % 256

/-- The conversion `color.RGBAModel.Convert`: each channel shifted down to 8 bits. -/
def RGBAModel (c : Color) : RGBA :=
  ⟨uint8 (c.r >>> 8), uint8 (c.g >>> 8), uint8 (c.b >>> 8), uint8 (c.a >>> 8)⟩

end color

namespace image

structure Point where
  X : Int
  Y : Int
deriving DecidableEq, Repr

structure Rectangle where
  Min : Point
  Max : Point
deriving DecidableEq, Repr

/-- The zero rectangle `image.ZR`. -/
def ZR : Rectangle := ⟨⟨0, 0⟩, ⟨0, 0⟩⟩

def Point.Sub (p q : Point) : Point := ⟨Go.sub p.X q.X, Go.sub p.Y q.Y⟩

def Point.In (p : Point) (r : Rectangle) : Bool :=
  decide (r.Min.X ≤ p.X) && decide (p.X < r.Max.X) &&
    decide (r.Min.Y ≤ p.Y) && decide (p.Y < r.Max.Y)

def Rectangle.Dx (r : Rectangle) : Int := Go.sub r.Max.X r.Min.X

def Rectangle.Dy (r : Rectangle) : Int := Go.sub r.Max.Y r.Min.Y

def Rectangle.Size (r : Rectangle) : Point :=
  ⟨Go.sub r.Max.X r.Min.X, Go.sub r.Max.Y r.Min.Y⟩

def Rectangle.Add (r : Rectangle) (p : Point) : Rectangle :=
  ⟨⟨Go.add r.Min.X p.X, Go.add r.Min.Y p.Y⟩, ⟨Go.add r.Max.X p.X, Go.add r.Max.Y p.Y⟩⟩

def Rectangle.Empty (r : Rectangle) : Bool :=
  decide (r.Min.X ≥ r.Max.X) || decide (r.Min.Y ≥ r.Max.Y)

def Rectangle.Intersect (r s : Rectangle) : Rectangle :=
  let minX := if r.Min.X < s.Min.X then s.Min.X else r.Min.X
  let minY := if r.Min.Y < s.Min.Y then s.Min.Y else r.Min.Y
  let maxX := if r.Max.X > s.Max.X then s.Max.X else r.Max.X
  let maxY := if r.Max.Y > s.Max.Y then s.Max.Y else r.Max.Y
  let r : Rectangle := ⟨⟨minX, minY⟩, ⟨maxX, maxY⟩⟩
  if r.Empty then ZR else r

/-- A decoded picture as the interface `image.Image` shows it: its bounds and
the colour at each point (as returned by `At(x, y).RGBA()`). -/
structure Image where
  Bounds : Rectangle
  At : Int → Int → color.Color

/-- The type `image.RGBA`: an in-memory picture of 4 bytes per pixel. -/
structure RGBA where
  Pix : List Nat
  Stride : Int
  Rect : Rectangle
deriving DecidableEq, Repr

def RGBA.Bounds (p : RGBA) : Rectangle := p.Rect

def RGBA.PixOffset (p : RGBA) (x y : Int) : Int :=
  Go.add (Go.mul (Go.sub y p.Rect.Min.Y) p.Stride) (Go.mul (Go.sub x p.Rect.Min.X) 4)

/-- The method `RGBA.RGBAAt`: the zero colour outside the bounds; slicing
`Pix[i : i+4]` out of range panics. -/
def RGBA.RGBAAt (p : RGBA) (x y : Int) : Outcome color.RGBA :=
  if !(Point.In ⟨x, y⟩ p.Rect) then Outcome.returned ⟨0, 0, 0, 0⟩
  else
    let i := p.PixOffset x y
    if 0 ≤ i ∧ i + 4 ≤ p.Pix.length then
      let s := (p.Pix.drop i.toNat).take 4
      Outcome.returned ⟨s.getD 0 0, s.getD 1 0, s.getD 2 0, s.getD 3 0⟩
    else Outcome.panicked "slice bounds out of range"

/-- The helper `mul3NonNeg`: `x*y*z`, or -1 when an argument is negative or
the product does not fit an `int`. -/
def mul3NonNeg (x y z : Int) : Int :=
  if x < 0 ∨ y < 0 ∨ z < 0 then -1
  else
    let hi := (x * y) / 2 ^ 64
    let lo := (x * y) % 2 ^ 64
    if hi ≠ 0 then -1
    else
      let hi := (lo * z) / 2 ^ 64
      let lo := (lo * z) % 2 ^ 64
      if hi ≠ 0 then -1
      else
        let a := Go.int lo
        if a < 0 ∨ a % 2 ^ 64 ≠ lo then -1 else a

/-- The helper `pixelBufferLength`: panics on huge or negative dimensions. -/
def pixelBufferLength (bytesPerPixel : Int) (r : Rectangle) (imageTypeName : String) :
    Outcome Int :=
  let totalLength := mul3NonNeg bytesPerPixel r.Dx r.Dy
  if totalLength < 0 then
    Outcome.panicked ("image: New" ++ imageTypeName ++ " Rectangle has huge or negative dimensions")
  else Outcome.returned totalLength

/-- The constructor `image.NewRGBA`: a zeroed pixel buffer for the rectangle. -/
def NewRGBA (r : Rectangle) : Outcome RGBA :=
  match pixelBufferLength 4 r "RGBA" with
  | Outcome.panicked msg => Outcome.panicked msg
  | Outcome.returned n =>
    Outcome.returned { Pix := List.replicate n.toNat 0, Stride := Go.mul 4 r.Dx, Rect := r }

end image

namespace draw

open image

/-- The helper `clip` of `image/draw` for a nil mask: the rectangle cut down to
the destination and to the translated source bounds, and the source point
moved by the same amount as the rectangle's corner. -/
def clip (dst : RGBA) (r : Rectangle) (src : Image) (sp : Point) : Rectangle × Point :=
  let orig := r.Min
  let r := r.Intersect dst.Bounds
  let r := r.Intersect (src.Bounds.Add (orig.Sub sp))
  let dx := Go.sub r.Min.X orig.X
  let dy := Go.sub r.Min.Y orig.Y
  if dx = 0 ∧ dy = 0 then (r, sp)
  else (r, ⟨Go.add sp.X dx, Go.add sp.Y dy⟩)

/-- One pixel of `drawRGBA` for `op = Src` without a mask:
`d[k] = uint8(s * ma / m >> 8)` with `ma = m = 0xffff`, in `uint32` arithmetic,
written to `Pix[i : i+4]`. -/
def storePixel (pix : List Nat) (i : Int) (c : color.Color) : Outcome (List Nat) :=
  if 0 ≤ i ∧ i + 4 ≤ pix.length then
    let m := 65535
    let ch := fun (s : Nat) => color.uint8 (((s * m) % 2 ^ 32 / m) >>> 8)
    let k := i.toNat
    Outcome.returned ((((pix.set k (ch c.r)).set (k + 1) (ch c.g)).set (k + 2) (ch c.b)).set
      (k + 3) (ch c.a))
  else Outcome.panicked "slice bounds out of range"

/-- The inner loop of `drawRGBA`: `n` pixels of one row, from buffer offset `i`
and source column `sx`. -/
def drawRow (src : Image) (sy : Int) : Nat → Int → Int → List Nat → Outcome (List Nat)
  | 0, _, _, pix => Outcome.returned pix
  | n + 1, i, sx, pix =>
    match storePixel pix i (src.At sx sy) with
    | Outcome.panicked msg => Outcome.panicked msg
    | Outcome.returned pix => drawRow src sy n (Go.add i 4) (Go.add sx 1) pix

/-- The outer loop of `drawRGBA`: `rows` rows of `cols` pixels, the row
starting at buffer offset `i0`. -/
def drawRows (src : Image) (stride : Int) (cols : Nat) (sx0 : Int) :
    Nat → Int → Int → List Nat → Outcome (List Nat)
  | 0, _, _, pix => Outcome.returned pix
  | n + 1, i0, sy, pix =>
    match drawRow src sy cols i0 sx0 pix with
    | Outcome.panicked msg => Outcome.panicked msg
    | Outcome.returned pix => drawRows src stride cols sx0 n (Go.add i0 stride) (Go.add sy 1) pix

/-- The function `drawRGBA` for `op = Src` and a nil mask, top to bottom and
left to right (the source is never the destination here). -/
def drawRGBA (dst : RGBA) (r : Rectangle) (src : Image) (sp : Point) : Outcome RGBA :=
  let x0 := r.Min.X
  let x1 := r.Max.X
  let y0 := r.Min.Y
  let y1 := r.Max.Y
  let sy := Go.sub (Go.add sp.Y y0) r.Min.Y
  let sx0 := Go.sub (Go.add sp.X x0) r.Min.X
  let i0 := dst.PixOffset x0 y0
  match drawRows src dst.Stride (x1 - x0).toNat sx0 (y1 - y0).toNat i0 sy dst.Pix with
  | Outcome.panicked msg => Outcome.panicked msg
  | Outcome.returned pix => Outcome.returned { dst with Pix := pix }

/-- The call `draw.Draw(dst, r, src, sp, draw.Src)`: `DrawMask` with a nil
mask, which clips, returns at once on an empty rectangle and otherwise copies
pixel by pixel.  The special cases of `DrawMask` for particular source types
compute the same pixels as the general `drawRGBA`. -/
def Draw (dst : RGBA) (r : Rectangle) (src : Image) (sp : Point) : Outcome RGBA :=
  let (r, sp) := clip dst r src sp
  if r.Empty then Outcome.returned dst
  else drawRGBA dst r src sp

end draw

namespace Texture

open gl

def vertexShaderSource : String :=
  "\n#version 330 core\nlayout (location = 0) in vec3 aPos;\nlayout (location = 1) in vec3 aColor;\nlayout (location = 2) in vec2 aTexCoord;\n\nout vec3 ourColor;\nout vec2 TexCoord;\n\nvoid main()\n\x7b\n    gl_Position = vec4(aPos, 1.0);\n    ourColor = aColor;\n    TexCoord = aTexCoord;\n\x7d\n"

def fragmentShaderSource : String :=
  "\n#version 330 core\nout vec4 FragColor;\n\nin vec3 ourColor;\nin vec2 TexCoord;\n\nuniform sampler2D ourTexture;\n\nvoid main()\n\x7b\n    FragColor = texture(ourTexture, TexCoord);\n\x7d\n"

def indices : List Nat := [
  0, 1, 3,
  1, 2, 3]

def vertices : List ℚ := [
  0.5, 0.5, 0.0, 1.0, 0.0, 0.0, 1.0, 1.0,
  0.5, -0.5, 0.0, 0.0, 1.0, 0.0, 1.0, 0.0,
  -0.5, -0.5, 0.0, 0.0, 0.0, 1.0, 0.0, 0.0,
  -0.5, 0.5, 0.0, 1.0, 1.0, 0.0, 0.0, 1.0]

structure MainScene where
  textureID : Nat
  VAO : Nat
  VBO : Nat
  EBO : Nat
  shader : Option Shader
deriving DecidableEq, Repr

/-- The scene `&MainScene{}` handed to the engine: every field zero. -/
def MainScene.zero : MainScene := ⟨0, 0, 0, 0, none⟩

/-- What `newTexture` asks of the operating system and the standard library:
`os.Open` (the file's bytes, or the error text), `image.Decode` with the gif,
jpeg and png decoders registered, and the `%q` quoting of `fmt`. -/
structure Host where
  Open : String → Except String (List Nat)
  Decode : List Nat → Except String image.Image
  Quote : String → String

variable {α : Type}

/-- The function `newTexture`, with the allocator of the RGBA buffer as an
argument.  The result is the pair `(uint32, error)` it returns, or a panic. -/
def newTextureWith (newRGBA : image.Rectangle → Outcome image.RGBA) (h : Host)
    (file : String) (d : Driver α) : Outcome (Nat × Option String) × Driver α :=
  match h.Open file with
  | Except.error err =>
    (Outcome.returned (0, some ("texture " ++ h.Quote file ++ " not found on disk: " ++ err)), d)
  | Except.ok imgFile =>
    match h.Decode imgFile with
    | Except.error err => (Outcome.returned (0, some err), d)
    | Except.ok img =>
      match newRGBA img.Bounds with
      | Outcome.panicked msg => (Outcome.panicked msg, d)
      | Outcome.returned rgba =>
        if rgba.Stride ≠ Go.mul rgba.Rect.Size.X 4 then
          (Outcome.returned (0, some "unsupported stride"), d)
        else
          match draw.Draw rgba rgba.Bounds img ⟨0, 0⟩ with
          | Outcome.panicked msg => (Outcome.panicked msg, d)
          | Outcome.returned rgba =>
            let (texture, d) := GenTextures d
            let d := d.emit (Call.ActiveTexture TextureUnit.TEXTURE0)
            let d := d.emit (Call.BindTexture TextureTarget.TEXTURE_2D texture)
            let d := d.emit (Call.TexParameteri TextureTarget.TEXTURE_2D
              TexParam.TEXTURE_MIN_FILTER TexValue.LINEAR)
            let d := d.emit (Call.TexParameteri TextureTarget.TEXTURE_2D
              TexParam.TEXTURE_MAG_FILTER TexValue.LINEAR)
            let d := d.emit (Call.TexParameteri TextureTarget.TEXTURE_2D
              TexParam.TEXTURE_WRAP_S TexValue.CLAMP_TO_EDGE)
            let d := d.emit (Call.TexParameteri TextureTarget.TEXTURE_2D
              TexParam.TEXTURE_WRAP_T TexValue.CLAMP_TO_EDGE)
            let d := d.emit (Call.TexImage2D TextureTarget.TEXTURE_2D 0 PixelFormat.RGBA
              (Go.int32 rgba.Rect.Size.X) (Go.int32 rgba.Rect.Size.Y) 0 PixelFormat.RGBA
              DataType.UNSIGNED_BYTE rgba.Pix)
            let d := d.emit (Call.GenerateMipmap TextureTarget.TEXTURE_2D)
            (Outcome.returned (texture, none), d)

/-- The function `newTexture`: the buffer comes from `image.NewRGBA`. -/
def newTexture (h : Host) (file : String) (d : Driver α) :
    Outcome (Nat × Option String) × Driver α :=
  newTextureWith image.NewRGBA h file d

/-- `MainScene.OnEnter`.  `createShader` is the engine's `render.CreateShader`.
An error from it or from `newTexture` ends the process (`log.Fatalln`), as
does a panic; the driver is returned as it stood at that moment. -/
def OnEnter (createShader : String → String → Except String Shader) (h : Host)
    (s : MainScene) (d : Driver α) : Except String MainScene × Driver α :=
  match createShader vertexShaderSource fragmentShaderSource with
  | Except.error err => (Except.error err, d)
  | Except.ok sh =>
    let s := { s with shader := some sh }
    let (vao, d) := GenVertexArrays d
    let s := { s with VAO := vao }
    let d := d.emit (Call.BindVertexArray s.VAO)
    let (vbo, d) := GenBuffers d
    let s := { s with VBO := vbo }
    let d := d.emit (Call.BindBuffer BufferTarget.ARRAY_BUFFER s.VBO)
    let d := d.emit (Call.BufferData BufferTarget.ARRAY_BUFFER (4 * vertices.length)
      (Data.float32s vertices) Usage.STATIC_DRAW)
    let (ebo, d) := GenBuffers d
    let s := { s with EBO := ebo }
    let d := d.emit (Call.BindBuffer BufferTarget.ELEMENT_ARRAY_BUFFER s.EBO)
    let d := d.emit (Call.BufferData BufferTarget.ELEMENT_ARRAY_BUFFER (4 * indices.length)
      (Data.uint32s indices) Usage.STATIC_DRAW)
    let d := d.emit (Call.VertexAttribPointer 0 3 DataType.FLOAT false (8 * 4) 0)
    let d := d.emit (Call.EnableVertexAttribArray 0)
    let d := d.emit (Call.VertexAttribPointer 1 3 DataType.FLOAT false (8 * 4) (3 * 4))
    let d := d.emit (Call.EnableVertexAttribArray 1)
    let d := d.emit (Call.VertexAttribPointer 2 2 DataType.FLOAT false (8 * 4) (6 * 4))
    let d := d.emit (Call.EnableVertexAttribArray 2)
    match newTexture h "assets/wall.jpg" d with
    | (Outcome.panicked msg, d) => (Except.error msg, d)
    | (Outcome.returned (_, some err), d) => (Except.error err, d)
    | (Outcome.returned (textureID, none), d) =>
      (Except.ok { s with textureID := textureID }, d)

/-- `MainScene.OnExit`. -/
def OnExit (s : MainScene) (d : Driver α) : Driver α :=
  let d := DeleteVertexArrays d s.VAO
  let d := DeleteBuffers d s.VBO
  let d := DeleteBuffers d s.EBO
  d

/-- `MainScene.OnUpdate`; a nil `shader` is a nil dereference at `s.shader.Use()`. -/
def OnUpdate (s : MainScene) (_dt : Int) (d : Driver α) : Except String (Driver α) :=
  let d := d.emit (Call.BindTexture TextureTarget.TEXTURE_2D s.textureID)
  match s.shader with
  | none => Except.error "invalid memory address or nil pointer dereference"
  | some sh =>
    let d := sh.Use d
    let d := d.emit (Call.BindVertexArray s.VAO)
    let d := d.emit (Call.DrawElements Mode.TRIANGLES 6 DataType.UNSIGNED_INT 0)
    Except.ok d

end Texture

/-! ## The shader program builder of the engine, from its specification -/

namespace render

open gl

variable {α : Type}

/-- The two pipeline stages a program is built from. -/
inductive Stage where
  | Vertex
  | Fragment
deriving DecidableEq, Repr

/-- The ways a build fails: a stage does not compile, or the link fails; each
carries the driver's diagnostic log. -/
inductive BuildError where
  | CompileError (stage : Stage) (log : String)
  | LinkError (log : String)
deriving DecidableEq, Repr

/-- The driver's verdicts on source text: whether a stage compiles and whether
two compiled stages link, with the diagnostic log on failure. -/
structure Compiler where
  compile : Stage → String → Except String Unit
  link : String → String → Except String Unit

/-- Create a stage or program object: the driver picks the name. -/
def create (d : Driver α) (k : Kind) : Nat × Driver α :=
  let n := d.fresh k d.live
  (n, { d with live := ⟨k, n⟩ :: d.live })

/-- Release a stage or program object. -/
def release (d : Driver α) (k : Kind) (n : Nat) : Driver α :=
  { d with live := d.live.filter (fun h => decide (h ≠ ⟨k, n⟩)) }

/-- Modelled from the spec: the engine function `render.CreateShader`, whose
source is not part of this repository (the demos only call it).  Section 4.1:
compile the vertex stage into a stage object, then the fragment stage, each
failing with a compile error tagged with its stage; link both into a program
object, failing with a link error; on success release the two stage objects
and return the program handle; on any failure return no handle and release
every object created so far. -/
def CreateShader (c : Compiler) (vertexSource fragmentSource : String) (d : Driver α) :
    Except BuildError Shader × Driver α :=
  let (vs, d) := create d Kind.shader
  match c.compile Stage.Vertex vertexSource with
  | Except.error log =>
    (Except.error (BuildError.CompileError Stage.Vertex log), release d Kind.shader vs)
  | Except.ok _ =>
    let (fs, d) := create d Kind.shader
    match c.compile Stage.Fragment fragmentSource with
    | Except.error log =>
      (Except.error (BuildError.CompileError Stage.Fragment log),
        release (release d Kind.shader fs) Kind.shader vs)
    | Except.ok _ =>
      let (prog, d) := create d Kind.program
      match c.link vertexSource fragmentSource with
      | Except.error log =>
        (Except.error (BuildError.LinkError log),
          release (release (release d Kind.program prog) Kind.shader fs) Kind.shader vs)
      | Except.ok _ =>
        (Except.ok ⟨prog⟩, release (release d Kind.shader fs) Kind.shader vs)

/-- A compiler that accepts every source. -/
def acceptAll : Compiler := ⟨fun _ _ => Except.ok (), fun _ _ => Except.ok ()⟩

/-- A compiler that rejects fragment stages. -/
def rejectFragment : Compiler :=
  ⟨fun st _ => match st with
    | Stage.Vertex => Except.ok ()
    | Stage.Fragment => Except.error "0:1: syntax error",
   fun _ _ => Except.ok ()⟩

end render

/-! ## Auxiliary definitions used to state and prove the properties -/

namespace gl

variable {α : Type}

/-- A layout is well packed for a stride when its attributes are pairwise
non-overlapping, each lies inside one vertex and declares that stride, and
their byte lengths add up to the stride. -/
def Packed (stride : Nat) (l : List Attrib) : Prop :=
  l.Pairwise (fun a b => a.stop ≤ b.offset ∨ b.stop ≤ a.offset) ∧
    (∀ a ∈ l, a.stride = stride ∧ a.stop ≤ stride) ∧
    (l.map (fun a => 4 * a.size)).sum = stride

instance (stride : Nat) (l : List Attrib) : Decidable (Packed stride l) := by
  unfold Packed
  infer_instance

end gl

namespace Helloworld

open gl

variable {α : Type}

/-- The calls `OnEnter` makes once the shader exists, given the three names
the driver handed out. -/
def enterCalls (vao vbo ebo : Nat) : List (Call α) :=
  [Call.GenVertexArrays vao, Call.BindVertexArray vao, Call.GenBuffers vbo,
   Call.BindBuffer BufferTarget.ARRAY_BUFFER vbo,
   Call.BufferData BufferTarget.ARRAY_BUFFER 72 (Data.float32s vertices) Usage.STATIC_DRAW,
   Call.GenBuffers ebo, Call.BindBuffer BufferTarget.ELEMENT_ARRAY_BUFFER ebo,
   Call.BufferData BufferTarget.ELEMENT_ARRAY_BUFFER 24 (Data.uint32s indices) Usage.STATIC_DRAW,
   Call.VertexAttribPointer 0 3 DataType.FLOAT false 24 0, Call.EnableVertexAttribArray 0,
   Call.VertexAttribPointer 1 3 DataType.FLOAT false 24 12, Call.EnableVertexAttribArray 1]

end Helloworld

namespace Texture

open gl

variable {α : Type}

/-- The calls `newTexture` makes once the pixels are ready. -/
def textureCalls (texture : Nat) (width height : Int) (pix : List Nat) : List (Call α) :=
  [Call.GenTextures texture, Call.ActiveTexture TextureUnit.TEXTURE0,
   Call.BindTexture TextureTarget.TEXTURE_2D texture,
   Call.TexParameteri TextureTarget.TEXTURE_2D TexParam.TEXTURE_MIN_FILTER TexValue.LINEAR,
   Call.TexParameteri TextureTarget.TEXTURE_2D TexParam.TEXTURE_MAG_FILTER TexValue.LINEAR,
   Call.TexParameteri TextureTarget.TEXTURE_2D TexParam.TEXTURE_WRAP_S TexValue.CLAMP_TO_EDGE,
   Call.TexParameteri TextureTarget.TEXTURE_2D TexParam.TEXTURE_WRAP_T TexValue.CLAMP_TO_EDGE,
   Call.TexImage2D TextureTarget.TEXTURE_2D 0 PixelFormat.RGBA width height 0 PixelFormat.RGBA
     DataType.UNSIGNED_BYTE pix,
   Call.GenerateMipmap TextureTarget.TEXTURE_2D]

/-- The driver after a successful `newTexture`. -/
def uploaded (d : Driver α) (width height : Int) (pix : List Nat) : Driver α :=
  { d with
    live := ⟨Kind.texture, d.fresh Kind.texture d.live⟩ :: d.live,
    calls := d.calls ++ textureCalls (d.fresh Kind.texture d.live) width height pix }

/-- The calls `OnEnter` makes before it loads the texture. -/
def enterCalls (vao vbo ebo : Nat) : List (Call α) :=
  [Call.GenVertexArrays vao, Call.BindVertexArray vao, Call.GenBuffers vbo,
   Call.BindBuffer BufferTarget.ARRAY_BUFFER vbo,
   Call.BufferData BufferTarget.ARRAY_BUFFER 128 (Data.float32s vertices) Usage.STATIC_DRAW,
   Call.GenBuffers ebo, Call.BindBuffer BufferTarget.ELEMENT_ARRAY_BUFFER ebo,
   Call.BufferData BufferTarget.ELEMENT_ARRAY_BUFFER 24 (Data.uint32s indices) Usage.STATIC_DRAW,
   Call.VertexAttribPointer 0 3 DataType.FLOAT false 32 0, Call.EnableVertexAttribArray 0,
   Call.VertexAttribPointer 1 3 DataType.FLOAT false 32 12, Call.EnableVertexAttribArray 1,
   Call.VertexAttribPointer 2 2 DataType.FLOAT false 32 24, Call.EnableVertexAttribArray 2]

/-- The driver as `OnEnter` leaves it just before `newTexture`. -/
def entered (d : Driver α) : Driver α :=
  let vao := d.fresh Kind.vertexArray d.live
  let vbo := d.fresh Kind.buffer (⟨Kind.vertexArray, vao⟩ :: d.live)
  let ebo := d.fresh Kind.buffer (⟨Kind.buffer, vbo⟩ :: ⟨Kind.vertexArray, vao⟩ :: d.live)
  { d with
    live := ⟨Kind.buffer, ebo⟩ :: ⟨Kind.buffer, vbo⟩ :: ⟨Kind.vertexArray, vao⟩ :: d.live,
    calls := d.calls ++ enterCalls vao vbo ebo }

/-- A 2 by 1 picture at the origin. -/
def examplePicture : image.Image :=
  ⟨⟨⟨0, 0⟩, ⟨2, 1⟩⟩, fun x _ => ⟨65535, x.toNat * 30000, 0, 65535⟩⟩

/-- A host on which every file opens and decodes to `examplePicture`. -/
def exampleHost : Host :=
  ⟨fun _ => Except.ok [], fun _ => Except.ok examplePicture, fun f => "\"" ++ f ++ "\""⟩

/-- A host on which no file exists. -/
def missingHost : Host :=
  ⟨fun _ => Except.error "no such file or directory", fun _ => Except.ok examplePicture,
    fun f => "\"" ++ f ++ "\""⟩

/-- A host on which every file opens and none decodes. -/
def corruptHost : Host :=
  ⟨fun _ => Except.ok [], fun _ => Except.error "image: unknown format",
    fun f => "\"" ++ f ++ "\""⟩

/-- An allocator that pads every row by 4 bytes. -/
def paddedRGBA (r : image.Rectangle) : Outcome image.RGBA :=
  Outcome.returned
    { Pix := List.replicate ((4 * r.Dx + 4) * r.Dy).toNat 0, Stride := 4 * r.Dx + 4, Rect := r }

/-- A 1 by 1 red picture whose bounds start at (1, 0), as the first frame of a
GIF placed one pixel to the right of its canvas decodes. -/
def offsetPicture : image.Image :=
  ⟨⟨⟨1, 0⟩, ⟨2, 1⟩⟩, fun _ _ => ⟨65535, 0, 0, 65535⟩⟩

/-- A host on which every file opens and decodes to `offsetPicture`. -/
def offsetHost : Host :=
  ⟨fun _ => Except.ok [], fun _ => Except.ok offsetPicture, fun f => "\"" ++ f ++ "\""⟩

/-- The pixel data handed to `TexImage2D`, in order. -/
def uploadedPixels {α : Type} : List (Call α) → List (List Nat)
  | [] => []
  | Call.TexImage2D _ _ _ _ _ _ _ _ pix :: cs => pix :: uploadedPixels cs
  | _ :: cs => uploadedPixels cs

end Texture

/-! ## Properties -/

namespace gl

variable {α : Type}

theorem nextName_fresh (k : Kind) (l : List Handle) :
    (⟨k, nextName k l⟩ : Handle) ∉ l ∧ nextName k l ≠ 0 := by
  constructor
  · have key : ∀ (l : List Handle) (h : Handle), h ∈ l → h.kind = k →
        h.name ≤ ((l.filter (fun h => decide (h.kind = k))).map Handle.name).foldr max 0 := by
      intro l
      induction l with
      | nil => intro h hm; cases hm
      | cons x xs ih =>
        intro h hm hk
        rcases List.mem_cons.mp hm with rfl | hm
        · simp [List.filter, hk]
        · have := ih h hm hk
          by_cases hx : x.kind = k
          · simp only [List.filter, hx, decide_True, List.map_cons, List.foldr_cons]
            exact le_trans this (le_max_right _ _)
          · simpa [List.filter, hx] using this
    intro hm
    have := key l _ hm rfl
    simp only [nextName] at this
    omega
  · simp [nextName]

theorem start_fresh (α : Type) : (Driver.start α).Fresh := fun k l => nextName_fresh k l

end gl

namespace Helloworld

open gl

variable {α : Type}

theorem OnEnter_ok (createShader : String → String → Except String Shader)
    (s : MainScene) (d : Driver α) (sh : Shader)
    (hcs : createShader vertexShaderSource fragmentShaderSource = Except.ok sh) :
    ∃ vao vbo ebo,
      vao = d.fresh Kind.vertexArray d.live ∧
      vbo = d.fresh Kind.buffer (⟨Kind.vertexArray, vao⟩ :: d.live) ∧
      ebo = d.fresh Kind.buffer (⟨Kind.buffer, vbo⟩ :: ⟨Kind.vertexArray, vao⟩ :: d.live) ∧
      OnEnter createShader s d =
        (Except.ok ⟨vao, vbo, ebo, some sh⟩,
         { d with
           live := ⟨Kind.buffer, ebo⟩ :: ⟨Kind.buffer, vbo⟩ :: ⟨Kind.vertexArray, vao⟩ :: d.live,
           calls := d.calls ++ enterCalls vao vbo ebo }) := by
  refine ⟨_, _, _, rfl, rfl, rfl, ?_⟩
  simp [OnEnter, hcs, GenVertexArrays, GenBuffers, Driver.gen, Driver.emit, enterCalls,
    vertices, indices]

end Helloworld

namespace Texture

open gl

variable {α : Type}

/-- Every run of `newTextureWith` either leaves the driver untouched and does
not return a nil error, or returns the generated name with a nil error after
exactly the calls of `textureCalls`. -/
theorem newTextureWith_cases (newRGBA : image.Rectangle → Outcome image.RGBA) (h : Host)
    (file : String) (d : Driver α) :
    ((newTextureWith newRGBA h file d).2 = d ∧
        ∀ t, (newTextureWith newRGBA h file d).1 ≠ Outcome.returned (t, none)) ∨
      ∃ width height pix,
        newTextureWith newRGBA h file d =
          (Outcome.returned (d.fresh Kind.texture d.live, none), uploaded d width height pix) := by
  unfold newTextureWith
  split
  · left; simp
  · split
    · left; simp
    · split
      · left; simp
      · split
        · left; simp
        · split
          · left; simp
          · right
            rename_i _ rgba _
            refine ⟨Go.int32 rgba.Rect.Size.X, Go.int32 rgba.Rect.Size.Y, rgba.Pix, ?_⟩
            simp [GenTextures, Driver.gen, Driver.emit, uploaded, textureCalls]

theorem OnEnter_eq (createShader : String → String → Except String Shader) (h : Host)
    (s : MainScene) (d : Driver α) (sh : Shader)
    (hcs : createShader vertexShaderSource fragmentShaderSource = Except.ok sh) :
    OnEnter createShader h s d =
      match newTexture h "assets/wall.jpg" (entered d) with
      | (Outcome.panicked msg, d1) => (Except.error msg, d1)
      | (Outcome.returned (_, some err), d1) => (Except.error err, d1)
      | (Outcome.returned (textureID, none), d1) =>
        (Except.ok ⟨textureID, d.fresh Kind.vertexArray d.live,
          d.fresh Kind.buffer (⟨Kind.vertexArray, d.fresh Kind.vertexArray d.live⟩ :: d.live),
          d.fresh Kind.buffer (⟨Kind.buffer, d.fresh Kind.buffer
            (⟨Kind.vertexArray, d.fresh Kind.vertexArray d.live⟩ :: d.live)⟩ ::
            ⟨Kind.vertexArray, d.fresh Kind.vertexArray d.live⟩ :: d.live), some sh⟩, d1) := by
  simp [OnEnter, hcs, GenVertexArrays, GenBuffers, Driver.gen, Driver.emit, enterCalls,
    entered, vertices, indices]

end Texture

namespace Helloworld

open gl

/-- For every driver that never hands out a live name, a run of `OnEnter`
followed by `OnExit` deletes the vertex array and the vertex buffer and leaves
the index buffer live. -/
theorem EBO_survives_exit {α : Type} (createShader : String → String → Except String Shader)
    (s : MainScene) (d : Driver α) (sh : Shader)
    (hcs : createShader vertexShaderSource fragmentShaderSource = Except.ok sh)
    (hf : d.Fresh) :
    ∃ s1 d1, OnEnter createShader s d = (Except.ok s1, d1) ∧
      (⟨Kind.buffer, s1.EBO⟩ : Handle) ∈ (OnExit s1 d1).live ∧
      (⟨Kind.vertexArray, s1.VAO⟩ : Handle) ∉ (OnExit s1 d1).live ∧
      (⟨Kind.buffer, s1.VBO⟩ : Handle) ∉ (OnExit s1 d1).live := by
  obtain ⟨vao, vbo, ebo, hvao, hvbo, hebo, hrun⟩ := OnEnter_ok createShader s d sh hcs
  refine ⟨_, _, hrun, ?_, ?_, ?_⟩
  · have hne : ebo ≠ vbo := by
      intro he
      have := (hf Kind.buffer (⟨Kind.buffer, vbo⟩ :: ⟨Kind.vertexArray, vao⟩ :: d.live)).1
      rw [← hebo, he] at this
      exact this (List.mem_cons_self _ _)
    simp [OnExit, DeleteVertexArrays, DeleteBuffers, Driver.delete, List.filter, hne]
  · simp [OnExit, DeleteVertexArrays, DeleteBuffers, Driver.delete, List.mem_filter]
  · simp [OnExit, DeleteVertexArrays, DeleteBuffers, Driver.delete, List.mem_filter]

/-- C1, evaluated: on a driver with nothing live, `OnEnter` generates the
vertex array 1, the vertex buffer 1 and the index buffer 2, and after `OnExit`
the index buffer 2 is still live (only the vertex array and the vertex buffer
were deleted). -/
theorem helloworld_exit_leaves_EBO_live :
    (OnEnter (fun _ _ => Except.ok ⟨1⟩) MainScene.zero (Driver.start ℚ)).1
        = Except.ok ⟨1, 1, 2, some ⟨1⟩⟩ ∧
      generated (OnEnter (fun _ _ => Except.ok ⟨1⟩) MainScene.zero (Driver.start ℚ)).2.calls
        = [⟨Kind.vertexArray, 1⟩, ⟨Kind.buffer, 1⟩, ⟨Kind.buffer, 2⟩] ∧
      (OnExit ⟨1, 1, 2, some ⟨1⟩⟩
        (OnEnter (fun _ _ => Except.ok ⟨1⟩) MainScene.zero (Driver.start ℚ)).2).live
        = [⟨Kind.buffer, 2⟩] := by
  refine ⟨rfl, ?_, ?_⟩ <;> decide

/-- C3: the index list is `[0,1,3,1,2,3]` and the vertex data holds 18 floats,
3 vertices, so the index 3 is not below the vertex count; and every run of
`OnEnter` (once the shader exists) followed by `OnUpdate` completes, uploads
the index list unchanged next to the 72 bytes of 3 vertices, and ends with the
indexed draw of 6 indices: nothing rejects or alters the index 3. -/
theorem helloworld_index_unchecked {α : Type} [DivisionRing α]
    (createShader : String → String → Except String Shader) (s : MainScene) (d : Driver α)
    (sh : Shader) (hcs : createShader vertexShaderSource fragmentShaderSource = Except.ok sh)
    (sin : α → α) (dt : Int) (f : Frame α) (close : Bool) :
    indices = [0, 1, 3, 1, 2, 3] ∧ vertices.length = 18 ∧ vertexCount = 3 ∧
      3 ∈ indices ∧ vertexCount ≤ 3 ∧
      ∃ s1 d1 w, OnEnter createShader s d = (Except.ok s1, d1) ∧
        OnUpdate sin s1 dt f ⟨d1, close⟩ = Except.ok w ∧
        uploadedIndices (w.gl.calls.drop d.calls.length) = [[0, 1, 3, 1, 2, 3]] ∧
        uploadSizes BufferTarget.ARRAY_BUFFER (w.gl.calls.drop d.calls.length)
          = [vertexCount * 24] ∧
        w.gl.calls.getLast? = some (Call.DrawElements Mode.TRIANGLES 6 DataType.UNSIGNED_INT 0) := by
  refine ⟨rfl, by decide, by decide, by decide, by decide, ?_⟩
  obtain ⟨vao, vbo, ebo, -, -, -, hrun⟩ := OnEnter_ok createShader s d sh hcs
  refine ⟨_, _, _, hrun, rfl, ?_, ?_, ?_⟩
  · simp [GetUniformLocation, Shader.Use, Driver.emit, enterCalls, uploadedIndices, indices]
  · have : vertexCount = 3 := by decide
    simp [GetUniformLocation, Shader.Use, Driver.emit, enterCalls, uploadSizes, this]
  · simp [GetUniformLocation, Shader.Use, Driver.emit]

theorem helloworld_index_unchecked_witness :
    indices = [0, 1, 3, 1, 2, 3] ∧ vertices.length = 18 ∧ vertexCount = 3 ∧
      3 ∈ indices ∧ vertexCount ≤ 3 ∧
      ∃ s1 d1 w, OnEnter (fun _ _ => Except.ok ⟨1⟩) MainScene.zero (Driver.start ℚ)
          = (Except.ok s1, d1) ∧
        OnUpdate (fun x => x) s1 16 ⟨false, 0⟩ ⟨d1, false⟩ = Except.ok w ∧
        uploadedIndices (w.gl.calls.drop (Driver.start ℚ).calls.length)
          = [[0, 1, 3, 1, 2, 3]] ∧
        uploadSizes BufferTarget.ARRAY_BUFFER (w.gl.calls.drop (Driver.start ℚ).calls.length)
          = [vertexCount * 24] ∧
        w.gl.calls.getLast? = some (Call.DrawElements Mode.TRIANGLES 6 DataType.UNSIGNED_INT 0) :=
  helloworld_index_unchecked (fun _ _ => Except.ok ⟨1⟩) MainScene.zero (Driver.start ℚ) ⟨1⟩ rfl
    (fun x => x) 16 ⟨false, 0⟩ false

end Helloworld

namespace Texture

open gl

variable {α : Type}

/-- Every run of `OnEnter` that gets its shader ends in one of two ways: the
process is stopped with the driver as it stood before the texture was loaded,
or the scene is returned holding the four generated names, after the calls of
`enterCalls` and `textureCalls`. -/
theorem OnEnter_cases (createShader : String → String → Except String Shader) (h : Host)
    (s : MainScene) (d : Driver α) (sh : Shader)
    (hcs : createShader vertexShaderSource fragmentShaderSource = Except.ok sh) :
    (∃ err, OnEnter createShader h s d = (Except.error err, entered d)) ∨
      ∃ vao vbo ebo width height pix,
        OnEnter createShader h s d =
          (Except.ok ⟨(entered d).fresh Kind.texture (entered d).live, vao, vbo, ebo, some sh⟩,
            uploaded (entered d) width height pix) ∧
        (entered d).live =
          ⟨Kind.buffer, ebo⟩ :: ⟨Kind.buffer, vbo⟩ :: ⟨Kind.vertexArray, vao⟩ :: d.live ∧
        (entered d).calls = d.calls ++ enterCalls vao vbo ebo := by
  rw [OnEnter_eq createShader h s d sh hcs]
  rcases newTextureWith_cases image.NewRGBA h "assets/wall.jpg" (entered d) with ⟨h2, hne⟩ | hok
  · left
    unfold newTexture
    rcases hnt : newTextureWith image.NewRGBA h "assets/wall.jpg" (entered d) with ⟨o, d2⟩
    rw [hnt] at h2 hne
    simp only at h2
    subst h2
    cases o with
    | panicked msg => exact ⟨msg, rfl⟩
    | returned v =>
      obtain ⟨t, e⟩ := v
      cases e with
      | some err => exact ⟨err, rfl⟩
      | none => exact absurd rfl (hne t)
  · right
    obtain ⟨width, height, pix, hok⟩ := hok
    refine ⟨_, _, _, width, height, pix, ?_, rfl, rfl⟩
    unfold newTexture
    rw [hok]

/-- C2: for every run of `OnEnter` of demo 2 that returns a scene, the handles
it generated are the vertex array, the vertex buffer, the index buffer and the
texture returned by `newTexture`; after `OnExit`, the ones among them that are
still live are exactly the texture: the three others have been deleted. -/
theorem texture_exit_leaves_only_texture
    (createShader : String → String → Except String Shader) (h : Host)
    (s : MainScene) (d : Driver α) (s1 : MainScene) (d1 : Driver α)
    (hrun : OnEnter createShader h s d = (Except.ok s1, d1)) :
    generated (d1.calls.drop d.calls.length) =
        [⟨Kind.vertexArray, s1.VAO⟩, ⟨Kind.buffer, s1.VBO⟩, ⟨Kind.buffer, s1.EBO⟩,
          ⟨Kind.texture, s1.textureID⟩] ∧
      (generated (d1.calls.drop d.calls.length)).filter
          (fun x => decide (x ∈ (OnExit s1 d1).live)) = [⟨Kind.texture, s1.textureID⟩] ∧
      (⟨Kind.texture, s1.textureID⟩ : Handle) ∈ (OnExit s1 d1).live ∧
      (⟨Kind.vertexArray, s1.VAO⟩ : Handle) ∉ (OnExit s1 d1).live ∧
      (⟨Kind.buffer, s1.VBO⟩ : Handle) ∉ (OnExit s1 d1).live ∧
      (⟨Kind.buffer, s1.EBO⟩ : Handle) ∉ (OnExit s1 d1).live := by
  rcases hcs : createShader vertexShaderSource fragmentShaderSource with err | sh
  · simp [OnEnter, hcs] at hrun
  · rcases OnEnter_cases createShader h s d sh hcs with ⟨err, he⟩ | hok
    · rw [he] at hrun
      simp at hrun
    · obtain ⟨vao, vbo, ebo, width, height, pix, hok, hlive, hcalls⟩ := hok
      rw [hok] at hrun
      simp only [Prod.mk.injEq, Except.ok.injEq] at hrun
      obtain ⟨hs, hd⟩ := hrun
      subst hs hd
      have hgen : generated (List.drop d.calls.length
          (uploaded (entered d) width height pix).calls) =
          [⟨Kind.vertexArray, vao⟩, ⟨Kind.buffer, vbo⟩, ⟨Kind.buffer, ebo⟩,
            ⟨Kind.texture, (entered d).fresh Kind.texture (entered d).live⟩] := by
        simp [uploaded, hcalls, enterCalls, textureCalls, generated]
      have htex : (⟨Kind.texture, (entered d).fresh Kind.texture (entered d).live⟩ : Handle) ∈
          (OnExit ⟨(entered d).fresh Kind.texture (entered d).live, vao, vbo, ebo, some sh⟩
            (uploaded (entered d) width height pix)).live := by
        simp [OnExit, DeleteVertexArrays, DeleteBuffers, Driver.delete, uploaded, List.filter]
      have hvao : (⟨Kind.vertexArray, vao⟩ : Handle) ∉
          (OnExit ⟨(entered d).fresh Kind.texture (entered d).live, vao, vbo, ebo, some sh⟩
            (uploaded (entered d) width height pix)).live := by
        simp [OnExit, DeleteVertexArrays, DeleteBuffers, Driver.delete, List.mem_filter]
      have hvbo : (⟨Kind.buffer, vbo⟩ : Handle) ∉
          (OnExit ⟨(entered d).fresh Kind.texture (entered d).live, vao, vbo, ebo, some sh⟩
            (uploaded (entered d) width height pix)).live := by
        simp [OnExit, DeleteVertexArrays, DeleteBuffers, Driver.delete, List.mem_filter]
      have hebo : (⟨Kind.buffer, ebo⟩ : Handle) ∉
          (OnExit ⟨(entered d).fresh Kind.texture (entered d).live, vao, vbo, ebo, some sh⟩
            (uploaded (entered d) width height pix)).live := by
        simp [OnExit, DeleteVertexArrays, DeleteBuffers, Driver.delete, List.mem_filter]
      refine ⟨hgen, ?_, htex, hvao, hvbo, hebo⟩
      rw [hgen]
      simp only [List.filter, hvao, hvbo, hebo, htex, decide_False, decide_True]

end Texture

namespace Go

theorem int_of_range (x : Int) (h1 : -2 ^ 63 ≤ x) (h2 : x < 2 ^ 63) : int x = x := by
  unfold int
  omega

theorem int32_of_range (x : Int) (h1 : -2 ^ 31 ≤ x) (h2 : x < 2 ^ 31) : int32 x = x := by
  unfold int32
  omega

end Go

namespace draw

open image

theorem storePixel_ok (pix : List Nat) (i : Int) (c : color.Color) (h0 : 0 ≤ i)
    (h1 : i + 4 ≤ pix.length) :
    ∃ out, storePixel pix i c = Outcome.returned out ∧ out.length = pix.length := by
  unfold storePixel
  rw [if_pos ⟨h0, h1⟩]
  exact ⟨_, rfl, by simp⟩

theorem drawRow_ok (src : Image) (sy : Int) :
    ∀ (n : Nat) (i sx : Int) (pix : List Nat), 0 ≤ i → i + 4 * n ≤ pix.length →
      (pix.length : Int) < 2 ^ 63 →
      ∃ out, drawRow src sy n i sx pix = Outcome.returned out ∧ out.length = pix.length := by
  intro n
  induction n with
  | zero => intro i sx pix _ _ _; exact ⟨pix, rfl, rfl⟩
  | succ n ih =>
    intro i sx pix h0 h1 h2
    obtain ⟨mid, hmid, hlen⟩ := storePixel_ok pix i (src.At sx sy) h0 (by push_cast at h1; omega)
    have hadd : Go.add i 4 = i + 4 := by
      unfold Go.add
      apply Go.int_of_range <;> (push_cast at h1; omega)
    obtain ⟨out, hout, hlen2⟩ := ih (Go.add i 4) (Go.add sx 1) mid (by rw [hadd]; omega)
      (by rw [hadd, hlen]; push_cast at h1; omega) (by rw [hlen]; exact h2)
    refine ⟨out, ?_, by rw [hlen2, hlen]⟩
    simp only [drawRow, hmid]
    exact hout

theorem drawRows_ok (src : Image) (stride : Int) (cols : Nat) (sx0 : Int) (hs : 0 ≤ stride) :
    ∀ (n : Nat) (i0 sy : Int) (pix : List Nat), (pix.length : Int) < 2 ^ 63 →
      (∀ m : Nat, n = m + 1 → 0 ≤ i0 ∧ i0 + m * stride + 4 * cols ≤ pix.length) →
      ∃ out, drawRows src stride cols sx0 n i0 sy pix = Outcome.returned out ∧
        out.length = pix.length := by
  intro n
  induction n with
  | zero => intro i0 sy pix _ _; exact ⟨pix, rfl, rfl⟩
  | succ n ih =>
    intro i0 sy pix h2 hinv
    obtain ⟨h0, h1⟩ := hinv n rfl
    have hn : (0 : Int) ≤ n * stride := mul_nonneg (Int.ofNat_nonneg n) hs
    obtain ⟨mid, hmid, hlen⟩ := drawRow_ok src sy cols i0 sx0 pix h0 (by omega) h2
    obtain ⟨out, hout, hlen2⟩ := ih (Go.add i0 stride) (Go.add sy 1) mid (by rw [hlen]; exact h2)
      (by
        intro m hm
        subst hm
        have hexp : ((m + 1 : Nat) : Int) * stride = m * stride + stride := by
          push_cast; ring
        have hm0 : (0 : Int) ≤ m * stride := mul_nonneg (Int.ofNat_nonneg m) hs
        have hadd : Go.add i0 stride = i0 + stride := by
          unfold Go.add
          apply Go.int_of_range <;> omega
        rw [hadd, hlen]
        constructor <;> omega)
    refine ⟨out, ?_, by rw [hlen2, hlen]⟩
    simp only [drawRows, hmid]
    exact hout

end draw

namespace image

/-- An intersection is the zero rectangle or a non-empty rectangle inside both
arguments. -/
theorem Intersect_cases (r s : Rectangle) :
    r.Intersect s = ZR ∨
      (r.Min.X ≤ (r.Intersect s).Min.X ∧ (r.Intersect s).Max.X ≤ r.Max.X ∧
        r.Min.Y ≤ (r.Intersect s).Min.Y ∧ (r.Intersect s).Max.Y ≤ r.Max.Y ∧
        s.Min.X ≤ (r.Intersect s).Min.X ∧ (r.Intersect s).Max.X ≤ s.Max.X ∧
        s.Min.Y ≤ (r.Intersect s).Min.Y ∧ (r.Intersect s).Max.Y ≤ s.Max.Y ∧
        (r.Intersect s).Min.X < (r.Intersect s).Max.X ∧
        (r.Intersect s).Min.Y < (r.Intersect s).Max.Y) := by
  simp only [Rectangle.Intersect, Rectangle.Empty, Bool.or_eq_true, decide_eq_true_eq]
  split_ifs <;>
    first
    | exact Or.inl rfl
    | (refine Or.inr ⟨?_, ?_, ?_, ?_, ?_, ?_, ?_, ?_, ?_, ?_⟩ <;> dsimp only <;> omega)

theorem ZR_Intersect (s : Rectangle) : ZR.Intersect s = ZR := by
  rcases Intersect_cases ZR s with h | ⟨h1, h2, _, _, _, _, _, _, h5, _⟩
  · exact h
  · have e1 : ZR.Min.X = 0 := rfl
    have e2 : ZR.Max.X = 0 := rfl
    omega

end image

namespace draw

open image

/-- The clipped rectangle is the zero rectangle or a non-empty rectangle inside
the destination's bounds. -/
theorem clip_cases (dst : RGBA) (r : Rectangle) (src : Image) (sp : Point) :
    (clip dst r src sp).1 = ZR ∨
      (dst.Rect.Min.X ≤ (clip dst r src sp).1.Min.X ∧
        (clip dst r src sp).1.Max.X ≤ dst.Rect.Max.X ∧
        dst.Rect.Min.Y ≤ (clip dst r src sp).1.Min.Y ∧
        (clip dst r src sp).1.Max.Y ≤ dst.Rect.Max.Y ∧
        (clip dst r src sp).1.Min.X < (clip dst r src sp).1.Max.X ∧
        (clip dst r src sp).1.Min.Y < (clip dst r src sp).1.Max.Y) := by
  have hfst : (clip dst r src sp).1 =
      (r.Intersect dst.Bounds).Intersect (src.Bounds.Add (r.Min.Sub sp)) := by
    unfold clip
    simp only
    split <;> rfl
  rw [hfst]
  rcases Intersect_cases r dst.Bounds with h1 | h1
  · left
    rw [h1]
    exact ZR_Intersect _
  · rcases Intersect_cases (r.Intersect dst.Bounds) (src.Bounds.Add (r.Min.Sub sp)) with h | h
    · left; exact h
    · right
      have hb : dst.Bounds = dst.Rect := rfl
      rw [hb] at h1 h
      rw [hb]
      obtain ⟨-, -, -, -, a1, a2, a3, a4, -, -⟩ := h1
      obtain ⟨b1, b2, b3, b4, -, -, -, -, b5, b6⟩ := h
      refine ⟨?_, ?_, ?_, ?_, b5, b6⟩ <;> omega

end draw

namespace draw

open image

/-- Copying into a non-empty rectangle inside the bounds of a buffer laid out
as `NewRGBA` lays it out never leaves the pixel slice. -/
theorem drawRGBA_ok (dst : RGBA) (r : Rectangle) (src : Image) (sp : Point)
    (hS : dst.Stride = 4 * (dst.Rect.Max.X - dst.Rect.Min.X))
    (hL : (dst.Pix.length : Int) =
      4 * (dst.Rect.Max.X - dst.Rect.Min.X) * (dst.Rect.Max.Y - dst.Rect.Min.Y))
    (hlt : (dst.Pix.length : Int) < 2 ^ 63)
    (hx0 : dst.Rect.Min.X ≤ r.Min.X) (hx1 : r.Max.X ≤ dst.Rect.Max.X)
    (hy0 : dst.Rect.Min.Y ≤ r.Min.Y) (hy1 : r.Max.Y ≤ dst.Rect.Max.Y)
    (hx : r.Min.X < r.Max.X) (hy : r.Min.Y < r.Max.Y) :
    ∃ out, drawRGBA dst r src sp = Outcome.returned out ∧ out.Rect = dst.Rect ∧
      out.Stride = dst.Stride ∧ out.Pix.length = dst.Pix.length := by
  obtain ⟨W, hW⟩ : ∃ W, W = dst.Rect.Max.X - dst.Rect.Min.X := ⟨_, rfl⟩
  obtain ⟨H, hH⟩ : ∃ H, H = dst.Rect.Max.Y - dst.Rect.Min.Y := ⟨_, rfl⟩
  obtain ⟨a, ha⟩ : ∃ a, a = r.Min.Y - dst.Rect.Min.Y := ⟨_, rfl⟩
  obtain ⟨b, hb⟩ : ∃ b, b = r.Min.X - dst.Rect.Min.X := ⟨_, rfl⟩
  obtain ⟨m, hm⟩ : ∃ m : Nat, (r.Max.Y - r.Min.Y).toNat = m + 1 :=
    ⟨(r.Max.Y - r.Min.Y).toNat - 1, by omega⟩
  rw [← hW] at hS hL
  rw [← hH] at hL
  have hW1 : 1 ≤ W := by omega
  have hH1 : 1 ≤ H := by omega
  have hWH : W ≤ W * H := by nlinarith
  have hHW : H ≤ W * H := by nlinarith
  have hLe : (dst.Pix.length : Int) = 4 * (W * H) := by rw [hL]; ring
  have haS : a * (4 * W) ≤ (H - 1) * (4 * W) :=
    mul_le_mul_of_nonneg_right (by omega) (by omega)
  have haS0 : 0 ≤ a * (4 * W) := mul_nonneg (by omega) (by omega)
  have hexp : (H - 1) * (4 * W) = 4 * (W * H) - 4 * W := by ring
  have hamS : (a + m) * (4 * W) ≤ (H - 1) * (4 * W) :=
    mul_le_mul_of_nonneg_right (by omega) (by omega)
  have hexp2 : (a + m) * (4 * W) = a * (4 * W) + m * (4 * W) := by ring
  have hsubY : Go.sub r.Min.Y dst.Rect.Min.Y = a := by
    unfold Go.sub
    rw [← ha]
    apply Go.int_of_range <;> omega
  have hsubX : Go.sub r.Min.X dst.Rect.Min.X = b := by
    unfold Go.sub
    rw [← hb]
    apply Go.int_of_range <;> omega
  have hmulY : Go.mul a (4 * W) = a * (4 * W) := by
    unfold Go.mul
    apply Go.int_of_range <;> omega
  have hmulX : Go.mul b 4 = b * 4 := by
    unfold Go.mul
    apply Go.int_of_range <;> omega
  have hoff : dst.PixOffset r.Min.X r.Min.Y = a * (4 * W) + b * 4 := by
    unfold RGBA.PixOffset
    rw [hsubY, hsubX, hS, hmulY, hmulX]
    unfold Go.add
    apply Go.int_of_range <;> omega
  obtain ⟨pix, hpix, hlen⟩ := drawRows_ok src dst.Stride (r.Max.X - r.Min.X).toNat
    (Go.sub (Go.add sp.X r.Min.X) r.Min.X) (by omega) (r.Max.Y - r.Min.Y).toNat
    (dst.PixOffset r.Min.X r.Min.Y) (Go.sub (Go.add sp.Y r.Min.Y) r.Min.Y) dst.Pix hlt
    (by
      intro k hk
      have hkm : k = m := by omega
      subst hkm
      rw [hoff, hS]
      constructor
      · omega
      · have hc : ((r.Max.X - r.Min.X).toNat : Int) = r.Max.X - r.Min.X :=
          Int.toNat_of_nonneg (by omega)
        rw [hc]
        omega)
  refine ⟨{ dst with Pix := pix }, ?_, rfl, rfl, hlen⟩
  unfold drawRGBA
  simp only [hpix]

/-- Drawing into a buffer laid out as `NewRGBA` lays it out returns, keeping
the buffer's bounds, stride and length. -/
theorem Draw_ok (dst : RGBA) (r : Rectangle) (src : Image) (sp : Point)
    (hS : dst.Stride = 4 * (dst.Rect.Max.X - dst.Rect.Min.X))
    (hL : (dst.Pix.length : Int) =
      4 * (dst.Rect.Max.X - dst.Rect.Min.X) * (dst.Rect.Max.Y - dst.Rect.Min.Y))
    (hlt : (dst.Pix.length : Int) < 2 ^ 63) :
    ∃ out, Draw dst r src sp = Outcome.returned out ∧ out.Rect = dst.Rect ∧
      out.Stride = dst.Stride ∧ out.Pix.length = dst.Pix.length := by
  have hD : Draw dst r src sp =
      if (clip dst r src sp).1.Empty then Outcome.returned dst
      else drawRGBA dst (clip dst r src sp).1 src (clip dst r src sp).2 := rfl
  rw [hD]
  rcases clip_cases dst r src sp with h | ⟨h1, h2, h3, h4, h5, h6⟩
  · rw [h]
    exact ⟨dst, rfl, rfl, rfl, rfl⟩
  · have hne : (clip dst r src sp).1.Empty = false := by
      simp only [Rectangle.Empty, Bool.or_eq_false_iff, decide_eq_false_iff_not, not_le,
        ge_iff_le]
      exact ⟨h5, h6⟩
    rw [hne]
    exact drawRGBA_ok dst _ src _ hS hL hlt h1 h2 h3 h4 h5 h6

end draw

namespace image

/-- A non-negative result of `mul3NonNeg` is the exact product, and it fits an `int`. -/
theorem mul3NonNeg_spec (x y z : Int) (h : 0 ≤ mul3NonNeg x y z) :
    0 ≤ x ∧ 0 ≤ y ∧ 0 ≤ z ∧ mul3NonNeg x y z = x * y * z ∧ x * y * z < 2 ^ 63 := by
  unfold mul3NonNeg at h ⊢
  simp only at h ⊢
  split at h
  · omega
  · rename_i hneg
    rw [if_neg hneg]
    split at h
    · omega
    · rename_i hhi
      rw [if_neg hhi]
      have hxy : 0 ≤ x * y := mul_nonneg (by omega) (by omega)
      have hlo : x * y % 2 ^ 64 = x * y := by
        have : x * y / 2 ^ 64 = 0 := by simpa using hhi
        omega
      rw [hlo] at h ⊢
      split at h
      · omega
      · rename_i hhi2
        rw [if_neg hhi2]
        have hxyz : 0 ≤ x * y * z := mul_nonneg hxy (by omega)
        have hlo2 : x * y * z % 2 ^ 64 = x * y * z := by
          have : x * y * z / 2 ^ 64 = 0 := by simpa using hhi2
          omega
        rw [hlo2] at h ⊢
        split at h
        · omega
        · rename_i hfit
          rw [if_neg hfit]
          unfold Go.int at hfit ⊢
          refine ⟨by omega, by omega, by omega, by omega, by omega⟩

/-- When the product fits, `mul3NonNeg` returns it. -/
theorem mul3NonNeg_of_fits (x y z : Int) (hx : 0 ≤ x) (hy : 0 ≤ y) (hz : 0 ≤ z)
    (hxy : x * y < 2 ^ 64) (hxyz : x * y * z < 2 ^ 63) : mul3NonNeg x y z = x * y * z := by
  have h0 : 0 ≤ x * y := mul_nonneg hx hy
  have h1 : 0 ≤ x * y * z := mul_nonneg h0 hz
  have hlo : x * y % 2 ^ 64 = x * y := by omega
  have hhi : x * y / 2 ^ 64 = 0 := by omega
  have hlo2 : x * y * z % 2 ^ 64 = x * y * z := by omega
  have hhi2 : x * y * z / 2 ^ 64 = 0 := by omega
  have hint : Go.int (x * y * z) = x * y * z := Go.int_of_range _ (by omega) hxyz
  unfold mul3NonNeg
  simp only [hlo, hhi, hlo2, hhi2, hint]
  rw [if_neg (by omega), if_neg (by omega), if_neg (by omega), if_neg (by omega)]

/-- Whatever `NewRGBA` returns has the rectangle asked for, the stride
`4 * Dx` of the source, non-negative dimensions and exactly `4 * Dx * Dy`
bytes; in particular its stride is `Size().X * 4`. -/
theorem NewRGBA_returned (r : Rectangle) (rgba : RGBA)
    (h : NewRGBA r = Outcome.returned rgba) :
    rgba.Rect = r ∧ rgba.Stride = Go.mul 4 r.Dx ∧ 0 ≤ r.Dx ∧ 0 ≤ r.Dy ∧
      (rgba.Pix.length : Int) = 4 * r.Dx * r.Dy ∧ 4 * r.Dx * r.Dy < 2 ^ 63 ∧
      rgba.Stride = Go.mul rgba.Rect.Size.X 4 := by
  unfold NewRGBA pixelBufferLength at h
  simp only at h
  split at h
  · simp at h
  · rename_i n hn
    split at hn
    · simp at hn
    · rename_i hge
      simp only [Outcome.returned.injEq] at hn h
      obtain ⟨h1, h2, h3, h4, h5⟩ := mul3NonNeg_spec 4 r.Dx r.Dy (by omega)
      subst h
      refine ⟨rfl, rfl, h2, h3, ?_, h5, ?_⟩
      · simp only [List.length_replicate]
        rw [Int.toNat_of_nonneg (by omega), ← hn, h4]
      · show Go.mul 4 r.Dx = Go.mul (Go.sub r.Max.X r.Min.X) 4
        unfold Go.mul Rectangle.Dx
        rw [mul_comm]

/-- For a rectangle of width `W` and height `H` below `2^31` whose buffer
length fits an `int`, `NewRGBA` returns the zeroed buffer of `4*W*H` bytes
with stride `4*W`. -/
theorem NewRGBA_ok (r : Rectangle) (hW0 : 0 ≤ r.Max.X - r.Min.X)
    (hW : r.Max.X - r.Min.X < 2 ^ 31) (hH0 : 0 ≤ r.Max.Y - r.Min.Y)
    (hH : r.Max.Y - r.Min.Y < 2 ^ 31)
    (hfit : 4 * (r.Max.X - r.Min.X) * (r.Max.Y - r.Min.Y) < 2 ^ 63) :
    NewRGBA r = Outcome.returned
      { Pix := List.replicate (4 * (r.Max.X - r.Min.X) * (r.Max.Y - r.Min.Y)).toNat 0,
        Stride := 4 * (r.Max.X - r.Min.X), Rect := r } := by
  have hDx : r.Dx = r.Max.X - r.Min.X := by
    unfold Rectangle.Dx Go.sub
    apply Go.int_of_range <;> omega
  have hDy : r.Dy = r.Max.Y - r.Min.Y := by
    unfold Rectangle.Dy Go.sub
    apply Go.int_of_range <;> omega
  have hmul : mul3NonNeg 4 r.Dx r.Dy = 4 * r.Dx * r.Dy :=
    mul3NonNeg_of_fits 4 r.Dx r.Dy (by omega) (by omega) (by omega) (by omega)
      (by rw [hDx, hDy]; exact hfit)
  have hnn : 0 ≤ 4 * r.Dx * r.Dy := mul_nonneg (by omega) (by omega)
  have hstride : Go.mul 4 r.Dx = 4 * r.Dx := by
    unfold Go.mul
    apply Go.int_of_range <;> omega
  unfold NewRGBA pixelBufferLength
  simp only [hmul]
  rw [if_neg (by omega)]
  simp only [hstride]
  simp only [hDx, hDy]

end image

namespace Texture

open gl

variable {α : Type}

/-- Once the file is opened and decoded, and the picture is `W` by `H` with
both below `2^31` and a buffer length that fits an `int`, `newTexture` returns
the generated name and a nil error, having uploaded `W` by `H` pixels. -/
theorem newTexture_ok (h : Host) (file : String) (d : Driver α) (bytes : List Nat)
    (img : image.Image) (hopen : h.Open file = Except.ok bytes)
    (hdec : h.Decode bytes = Except.ok img)
    (hW0 : 0 ≤ img.Bounds.Max.X - img.Bounds.Min.X)
    (hW : img.Bounds.Max.X - img.Bounds.Min.X < 2 ^ 31)
    (hH0 : 0 ≤ img.Bounds.Max.Y - img.Bounds.Min.Y)
    (hH : img.Bounds.Max.Y - img.Bounds.Min.Y < 2 ^ 31)
    (hfit : 4 * (img.Bounds.Max.X - img.Bounds.Min.X) * (img.Bounds.Max.Y - img.Bounds.Min.Y)
      < 2 ^ 63) :
    ∃ pix : List Nat,
      (pix.length : Int) =
        4 * (img.Bounds.Max.X - img.Bounds.Min.X) * (img.Bounds.Max.Y - img.Bounds.Min.Y) ∧
      newTexture h file d =
        (Outcome.returned (d.fresh Kind.texture d.live, none),
          uploaded d (img.Bounds.Max.X - img.Bounds.Min.X)
            (img.Bounds.Max.Y - img.Bounds.Min.Y) pix) := by
  have hnew := image.NewRGBA_ok img.Bounds hW0 hW hH0 hH hfit
  have hnn : 0 ≤ 4 * (img.Bounds.Max.X - img.Bounds.Min.X) *
      (img.Bounds.Max.Y - img.Bounds.Min.Y) := mul_nonneg (by omega) hH0
  obtain ⟨rgba, hrgba⟩ : ∃ rgba : image.RGBA, rgba =
      { Pix := List.replicate (4 * (img.Bounds.Max.X - img.Bounds.Min.X) *
          (img.Bounds.Max.Y - img.Bounds.Min.Y)).toNat 0,
        Stride := 4 * (img.Bounds.Max.X - img.Bounds.Min.X), Rect := img.Bounds } := ⟨_, rfl⟩
  rw [← hrgba] at hnew
  have hRect : rgba.Rect = img.Bounds := by rw [hrgba]
  have hStride : rgba.Stride = 4 * (rgba.Rect.Max.X - rgba.Rect.Min.X) := by rw [hrgba]
  have hLen : (rgba.Pix.length : Int) =
      4 * (rgba.Rect.Max.X - rgba.Rect.Min.X) * (rgba.Rect.Max.Y - rgba.Rect.Min.Y) := by
    rw [hrgba]
    simp only [List.length_replicate]
    exact Int.toNat_of_nonneg hnn
  have hlt : (rgba.Pix.length : Int) < 2 ^ 63 := by rw [hLen, hRect]; exact hfit
  have hSX : rgba.Rect.Size.X = img.Bounds.Max.X - img.Bounds.Min.X := by
    rw [hRect]
    unfold image.Rectangle.Size Go.sub
    exact Go.int_of_range _ (by omega) (by omega)
  have hSY : rgba.Rect.Size.Y = img.Bounds.Max.Y - img.Bounds.Min.Y := by
    rw [hRect]
    unfold image.Rectangle.Size Go.sub
    exact Go.int_of_range _ (by omega) (by omega)
  have hcheck : rgba.Stride = Go.mul rgba.Rect.Size.X 4 := by
    rw [hSX, hStride, hRect]
    unfold Go.mul
    rw [Go.int_of_range _ (by omega) (by omega)]
    ring
  obtain ⟨out, hout, hoR, -, hoL⟩ := draw.Draw_ok rgba rgba.Bounds img ⟨0, 0⟩ hStride hLen hlt
  refine ⟨out.Pix, by rw [hoL, hLen, hRect], ?_⟩
  unfold newTexture newTextureWith
  simp only [hopen, hdec, hnew]
  rw [if_neg (by rw [not_not]; exact hcheck)]
  simp only [hout, hoR, hSX, hSY]
  rw [Go.int32_of_range _ (by omega) hW, Go.int32_of_range _ (by omega) hH]
  simp [GenTextures, Driver.gen, Driver.emit, uploaded, textureCalls]

end Texture

namespace Texture

open gl

variable {α : Type}

/-- C6: in `newTexture` (for any allocator of the RGBA buffer), once the file
is opened and decoded and the buffer allocated, the call returns the
"unsupported stride" error exactly when the buffer's stride differs from
`Size().X * 4`; and then it returns handle 0 and leaves the driver untouched:
no texture generated, nothing uploaded. -/
theorem unsupported_stride_iff (newRGBA : image.Rectangle → Outcome image.RGBA) (h : Host)
    (file : String) (d : Driver α) (bytes : List Nat) (img : image.Image) (rgba : image.RGBA)
    (hopen : h.Open file = Except.ok bytes) (hdec : h.Decode bytes = Except.ok img)
    (halloc : newRGBA img.Bounds = Outcome.returned rgba) :
    ((∃ t, (newTextureWith newRGBA h file d).1 = Outcome.returned (t, some "unsupported stride"))
        ↔ rgba.Stride ≠ Go.mul rgba.Rect.Size.X 4) ∧
      (rgba.Stride ≠ Go.mul rgba.Rect.Size.X 4 →
        newTextureWith newRGBA h file d =
          (Outcome.returned (0, some "unsupported stride"), d)) := by
  have hbad : rgba.Stride ≠ Go.mul rgba.Rect.Size.X 4 →
      newTextureWith newRGBA h file d =
        (Outcome.returned (0, some "unsupported stride"), d) := by
    intro hne
    unfold newTextureWith
    simp only [hopen, hdec, halloc]
    rw [if_pos hne]
  refine ⟨⟨?_, fun hne => ⟨0, by rw [hbad hne]⟩⟩, hbad⟩
  rintro ⟨t, ht⟩
  intro heq
  unfold newTextureWith at ht
  simp only [hopen, hdec, halloc] at ht
  rw [if_neg (by rw [not_not]; exact heq)] at ht
  split at ht
  · simp at ht
  · simp [GenTextures, Driver.gen] at ht

theorem unsupported_stride_iff_witness :
    ((∃ t, (newTextureWith paddedRGBA exampleHost "assets/wall.jpg" (Driver.start ℚ)).1
          = Outcome.returned (t, some "unsupported stride"))
        ↔ (12 : Int) ≠ Go.mul (image.Rectangle.Size ⟨⟨0, 0⟩, ⟨2, 1⟩⟩).X 4) ∧
      ((12 : Int) ≠ Go.mul (image.Rectangle.Size ⟨⟨0, 0⟩, ⟨2, 1⟩⟩).X 4 →
        newTextureWith paddedRGBA exampleHost "assets/wall.jpg" (Driver.start ℚ) =
          (Outcome.returned (0, some "unsupported stride"), Driver.start ℚ)) :=
  unsupported_stride_iff paddedRGBA exampleHost "assets/wall.jpg" (Driver.start ℚ) []
    examplePicture ⟨List.replicate 12 0, 12, ⟨⟨0, 0⟩, ⟨2, 1⟩⟩⟩ rfl rfl (by decide)

/-- C7: once the file is opened and decoded, `newTexture` never returns an
error, so the "unsupported stride" branch is never taken; whatever buffer
`image.NewRGBA` returns for the picture's bounds passes the stride check and
holds `4 * Dx * Dy` bytes; and for a picture `W` by `H` (both below `2^31`,
with `4*W*H` fitting an `int`) the buffer has stride `4*W` and `4*W*H` bytes
and `newTexture` returns the generated name after uploading width `W` and
height `H`. -/
theorem newTexture_stride_always_matches (h : Host) (file : String) (d : Driver α)
    (bytes : List Nat) (img : image.Image) (hopen : h.Open file = Except.ok bytes)
    (hdec : h.Decode bytes = Except.ok img) :
    (∀ t e, (newTexture h file d).1 ≠ Outcome.returned (t, some e)) ∧
      (∀ rgba, image.NewRGBA img.Bounds = Outcome.returned rgba →
        rgba.Stride = Go.mul rgba.Rect.Size.X 4 ∧ rgba.Stride = Go.mul 4 img.Bounds.Dx ∧
          (rgba.Pix.length : Int) = 4 * img.Bounds.Dx * img.Bounds.Dy) ∧
      (0 ≤ img.Bounds.Max.X - img.Bounds.Min.X → img.Bounds.Max.X - img.Bounds.Min.X < 2 ^ 31 →
        0 ≤ img.Bounds.Max.Y - img.Bounds.Min.Y → img.Bounds.Max.Y - img.Bounds.Min.Y < 2 ^ 31 →
        4 * (img.Bounds.Max.X - img.Bounds.Min.X) * (img.Bounds.Max.Y - img.Bounds.Min.Y)
          < 2 ^ 63 →
        ∃ rgba pix, image.NewRGBA img.Bounds = Outcome.returned rgba ∧
          rgba.Stride = 4 * (img.Bounds.Max.X - img.Bounds.Min.X) ∧
          (rgba.Pix.length : Int) =
            4 * (img.Bounds.Max.X - img.Bounds.Min.X) * (img.Bounds.Max.Y - img.Bounds.Min.Y) ∧
          pix.length = rgba.Pix.length ∧
          newTexture h file d =
            (Outcome.returned (d.fresh Kind.texture d.live, none),
              uploaded d (img.Bounds.Max.X - img.Bounds.Min.X)
                (img.Bounds.Max.Y - img.Bounds.Min.Y) pix)) := by
  refine ⟨?_, ?_, ?_⟩
  · intro t e ht
    unfold newTexture newTextureWith at ht
    simp only [hopen, hdec] at ht
    split at ht
    · simp at ht
    · rename_i rgba hnew
      obtain ⟨-, -, -, -, -, -, hcheck⟩ := image.NewRGBA_returned _ _ hnew
      rw [if_neg (by rw [not_not]; exact hcheck)] at ht
      split at ht
      · simp at ht
      · simp [GenTextures, Driver.gen] at ht
  · intro rgba hnew
    obtain ⟨-, h2, -, -, h5, -, h7⟩ := image.NewRGBA_returned _ _ hnew
    exact ⟨h7, h2, h5⟩
  · intro hW0 hW hH0 hH hfit
    obtain ⟨pix, hlen, hrun⟩ := newTexture_ok h file d bytes img hopen hdec hW0 hW hH0 hH hfit
    have hnn : 0 ≤ 4 * (img.Bounds.Max.X - img.Bounds.Min.X) *
        (img.Bounds.Max.Y - img.Bounds.Min.Y) := mul_nonneg (by omega) hH0
    refine ⟨_, pix, image.NewRGBA_ok img.Bounds hW0 hW hH0 hH hfit, rfl, ?_, ?_, hrun⟩
    · simp only [List.length_replicate]
      exact Int.toNat_of_nonneg hnn
    · simp only [List.length_replicate]
      omega

end Texture

namespace Texture

open gl

variable {α : Type}

theorem newTexture_stride_always_matches_witness :
    (∀ t e, (newTexture exampleHost "assets/wall.jpg" (Driver.start ℚ)).1
        ≠ Outcome.returned (t, some e)) ∧
      ∃ rgba pix, image.NewRGBA examplePicture.Bounds = Outcome.returned rgba ∧
        rgba.Stride = 4 * 2 ∧ (rgba.Pix.length : Int) = 4 * 2 * 1 ∧
        pix.length = rgba.Pix.length ∧
        newTexture exampleHost "assets/wall.jpg" (Driver.start ℚ) =
          (Outcome.returned (1, none), uploaded (Driver.start ℚ) 2 1 pix) :=
  ⟨(newTexture_stride_always_matches exampleHost "assets/wall.jpg" (Driver.start ℚ) []
      examplePicture rfl rfl).1,
    (newTexture_stride_always_matches exampleHost "assets/wall.jpg" (Driver.start ℚ) []
      examplePicture rfl rfl).2.2 (by decide) (by decide) (by decide) (by decide) (by decide)⟩

/-- C8: `newTexture` reports every load failure to its caller without touching
the driver: when the file cannot be opened it returns handle 0 and the error
"texture <quoted file name> not found on disk: <cause>"; when the file cannot
be decoded it returns handle 0 and the decoder's error; whenever it returns an
error at all the handle is 0 and the driver is exactly as before (no call
made, nothing generated).  When it returns a nil error, the handle is the name
the driver generated in this call, which is the one object the call created,
and it is live. -/
theorem newTexture_errors_atomic (h : Host) (file : String) (d : Driver α) :
    (∀ e, h.Open file = Except.error e →
        newTexture h file d =
          (Outcome.returned
            (0, some ("texture " ++ h.Quote file ++ " not found on disk: " ++ e)), d)) ∧
      (∀ bytes e, h.Open file = Except.ok bytes → h.Decode bytes = Except.error e →
        newTexture h file d = (Outcome.returned (0, some e), d)) ∧
      (∀ t e d1, newTexture h file d = (Outcome.returned (t, some e), d1) → t = 0 ∧ d1 = d) ∧
      (∀ t d1, newTexture h file d = (Outcome.returned (t, none), d1) →
        t = d.fresh Kind.texture d.live ∧
          generated (d1.calls.drop d.calls.length) = [⟨Kind.texture, t⟩] ∧
          d1.live = ⟨Kind.texture, t⟩ :: d.live) := by
  refine ⟨?_, ?_, ?_, ?_⟩
  · intro e he
    unfold newTexture newTextureWith
    simp only [he]
  · intro bytes e hb he
    unfold newTexture newTextureWith
    simp only [hb, he]
  · intro t e d1 hrun
    unfold newTexture at hrun
    rcases newTextureWith_cases image.NewRGBA h file d with ⟨hd, -⟩ | ⟨w, hh, pix, hok⟩
    · rw [hrun] at hd
      refine ⟨?_, hd⟩
      unfold newTextureWith at hrun
      split at hrun
      · simp only [Prod.mk.injEq, Outcome.returned.injEq] at hrun
        exact hrun.1.1.symm
      · split at hrun
        · simp only [Prod.mk.injEq, Outcome.returned.injEq] at hrun
          exact hrun.1.1.symm
        · split at hrun
          · simp at hrun
          · split at hrun
            · simp only [Prod.mk.injEq, Outcome.returned.injEq] at hrun
              exact hrun.1.1.symm
            · split at hrun
              · simp at hrun
              · simp [GenTextures, Driver.gen] at hrun
    · rw [hok] at hrun
      simp at hrun
  · intro t d1 hrun
    unfold newTexture at hrun
    rcases newTextureWith_cases image.NewRGBA h file d with ⟨-, hne⟩ | ⟨w, hh, pix, hok⟩
    · rw [hrun] at hne
      exact absurd rfl (hne t)
    · rw [hok] at hrun
      simp only [Prod.mk.injEq, Outcome.returned.injEq, and_true] at hrun
      obtain ⟨ht, hd⟩ := hrun
      subst ht hd
      refine ⟨rfl, ?_, rfl⟩
      simp [uploaded, textureCalls, generated]

theorem newTexture_errors_atomic_witness :
    newTexture missingHost "assets/wall.jpg" (Driver.start ℚ) =
        (Outcome.returned (0, some ("texture " ++ missingHost.Quote "assets/wall.jpg" ++
          " not found on disk: " ++ "no such file or directory")), Driver.start ℚ) ∧
      newTexture corruptHost "assets/wall.jpg" (Driver.start ℚ) =
        (Outcome.returned (0, some "image: unknown format"), Driver.start ℚ) ∧
      ((1 : Nat) = (Driver.start ℚ).fresh Kind.texture (Driver.start ℚ).live ∧
        generated ((newTexture exampleHost "assets/wall.jpg" (Driver.start ℚ)).2.calls.drop
          (Driver.start ℚ).calls.length) = [⟨Kind.texture, 1⟩] ∧
        (newTexture exampleHost "assets/wall.jpg" (Driver.start ℚ)).2.live =
          ⟨Kind.texture, 1⟩ :: (Driver.start ℚ).live) :=
  ⟨(newTexture_errors_atomic missingHost "assets/wall.jpg" (Driver.start ℚ)).1 _ rfl,
    (newTexture_errors_atomic corruptHost "assets/wall.jpg" (Driver.start ℚ)).2.1 [] _ rfl rfl,
    (newTexture_errors_atomic exampleHost "assets/wall.jpg" (Driver.start ℚ)).2.2.2 1
      (newTexture exampleHost "assets/wall.jpg" (Driver.start ℚ)).2 rfl⟩

theorem texture_exit_leaves_only_texture_witness :
    generated ((OnEnter (fun _ _ => Except.ok ⟨7⟩) exampleHost MainScene.zero
        (Driver.start ℚ)).2.calls.drop (Driver.start ℚ).calls.length) =
        [⟨Kind.vertexArray, 1⟩, ⟨Kind.buffer, 1⟩, ⟨Kind.buffer, 2⟩, ⟨Kind.texture, 1⟩] ∧
      (generated ((OnEnter (fun _ _ => Except.ok ⟨7⟩) exampleHost MainScene.zero
        (Driver.start ℚ)).2.calls.drop (Driver.start ℚ).calls.length)).filter
          (fun x => decide (x ∈ (OnExit ⟨1, 1, 1, 2, some ⟨7⟩⟩
            (OnEnter (fun _ _ => Except.ok ⟨7⟩) exampleHost MainScene.zero
              (Driver.start ℚ)).2).live)) = [⟨Kind.texture, 1⟩] ∧
      (⟨Kind.texture, 1⟩ : Handle) ∈ (OnExit ⟨1, 1, 1, 2, some ⟨7⟩⟩
        (OnEnter (fun _ _ => Except.ok ⟨7⟩) exampleHost MainScene.zero (Driver.start ℚ)).2).live ∧
      (⟨Kind.vertexArray, 1⟩ : Handle) ∉ (OnExit ⟨1, 1, 1, 2, some ⟨7⟩⟩
        (OnEnter (fun _ _ => Except.ok ⟨7⟩) exampleHost MainScene.zero (Driver.start ℚ)).2).live ∧
      (⟨Kind.buffer, 1⟩ : Handle) ∉ (OnExit ⟨1, 1, 1, 2, some ⟨7⟩⟩
        (OnEnter (fun _ _ => Except.ok ⟨7⟩) exampleHost MainScene.zero (Driver.start ℚ)).2).live ∧
      (⟨Kind.buffer, 2⟩ : Handle) ∉ (OnExit ⟨1, 1, 1, 2, some ⟨7⟩⟩
        (OnEnter (fun _ _ => Except.ok ⟨7⟩) exampleHost MainScene.zero (Driver.start ℚ)).2).live :=
  texture_exit_leaves_only_texture (fun _ _ => Except.ok ⟨7⟩) exampleHost MainScene.zero
    (Driver.start ℚ) ⟨1, 1, 1, 2, some ⟨7⟩⟩
    (OnEnter (fun _ _ => Except.ok ⟨7⟩) exampleHost MainScene.zero (Driver.start ℚ)).2 rfl

end Texture

section Layouts

open gl

/-- C4: the float attributes declared by `OnEnter` (once the shader exists)
are, in demo 1, attribute 0 = 3 floats at offset 0 and attribute 1 = 3 floats
at offset 12, stride 24 = 6*4; in demo 2, attribute 0 = 3 floats at offset 0,
attribute 1 = 3 floats at offset 12 and attribute 2 = 2 floats at offset 24,
stride 32 = 8*4.  Each layout is pairwise non-overlapping and fills its stride
exactly, and the uploaded vertex data, `4 * len(vertices)` bytes, is 3 strides
in demo 1 and 4 strides in demo 2. -/
theorem vertex_layouts_exact {α β : Type}
    (createShader1 : String → String → Except String Shader) (s1 : Helloworld.MainScene)
    (d1 : Driver α) (sh1 : Shader)
    (hcs1 : createShader1 Helloworld.vertexShaderSource Helloworld.fragmentShaderSource
      = Except.ok sh1)
    (createShader2 : String → String → Except String Shader) (h : Texture.Host)
    (s2 : Texture.MainScene) (d2 : Driver β) (sh2 : Shader)
    (hcs2 : createShader2 Texture.vertexShaderSource Texture.fragmentShaderSource
      = Except.ok sh2) :
    (attribs ((Helloworld.OnEnter createShader1 s1 d1).2.calls.drop d1.calls.length)
        = [⟨0, 3, 24, 0⟩, ⟨1, 3, 24, 12⟩] ∧
      Packed (6 * 4) [⟨0, 3, 24, 0⟩, ⟨1, 3, 24, 12⟩] ∧
      uploadSizes BufferTarget.ARRAY_BUFFER
        ((Helloworld.OnEnter createShader1 s1 d1).2.calls.drop d1.calls.length)
        = [4 * Helloworld.vertices.length] ∧
      4 * Helloworld.vertices.length = 3 * 24) ∧
    (attribs ((Texture.OnEnter createShader2 h s2 d2).2.calls.drop d2.calls.length)
        = [⟨0, 3, 32, 0⟩, ⟨1, 3, 32, 12⟩, ⟨2, 2, 32, 24⟩] ∧
      Packed (8 * 4) [⟨0, 3, 32, 0⟩, ⟨1, 3, 32, 12⟩, ⟨2, 2, 32, 24⟩] ∧
      uploadSizes BufferTarget.ARRAY_BUFFER
        ((Texture.OnEnter createShader2 h s2 d2).2.calls.drop d2.calls.length)
        = [4 * Texture.vertices.length] ∧
      4 * Texture.vertices.length = 4 * 32) := by
  have hl1 : Helloworld.vertices.length = 18 := by decide
  have hl2 : Texture.vertices.length = 32 := by decide
  constructor
  · obtain ⟨vao, vbo, ebo, -, -, -, hrun⟩ := Helloworld.OnEnter_ok createShader1 s1 d1 sh1 hcs1
    rw [hrun, hl1]
    refine ⟨?_, by decide, ?_, rfl⟩
    · simp [Helloworld.enterCalls, attribs]
    · simp [Helloworld.enterCalls, uploadSizes]
  · rw [hl2]
    refine ⟨?_, by decide, ?_, rfl⟩
    · rcases Texture.OnEnter_cases createShader2 h s2 d2 sh2 hcs2 with ⟨err, he⟩ | hok
      · rw [he]
        simp [Texture.entered, Texture.enterCalls, attribs]
      · obtain ⟨vao, vbo, ebo, width, height, pix, hok, -, hcalls⟩ := hok
        rw [hok]
        simp [Texture.uploaded, hcalls, Texture.enterCalls, Texture.textureCalls, attribs]
    · rcases Texture.OnEnter_cases createShader2 h s2 d2 sh2 hcs2 with ⟨err, he⟩ | hok
      · rw [he]
        simp [Texture.entered, Texture.enterCalls, uploadSizes]
      · obtain ⟨vao, vbo, ebo, width, height, pix, hok, -, hcalls⟩ := hok
        rw [hok]
        simp [Texture.uploaded, hcalls, Texture.enterCalls, Texture.textureCalls, uploadSizes]

theorem vertex_layouts_exact_witness :
    (attribs ((Helloworld.OnEnter (fun _ _ => Except.ok ⟨7⟩) Helloworld.MainScene.zero
          (Driver.start ℚ)).2.calls.drop (Driver.start ℚ).calls.length)
        = [⟨0, 3, 24, 0⟩, ⟨1, 3, 24, 12⟩] ∧
      Packed (6 * 4) [⟨0, 3, 24, 0⟩, ⟨1, 3, 24, 12⟩] ∧
      uploadSizes BufferTarget.ARRAY_BUFFER
        ((Helloworld.OnEnter (fun _ _ => Except.ok ⟨7⟩) Helloworld.MainScene.zero
          (Driver.start ℚ)).2.calls.drop (Driver.start ℚ).calls.length)
        = [4 * Helloworld.vertices.length] ∧
      4 * Helloworld.vertices.length = 3 * 24) ∧
    (attribs ((Texture.OnEnter (fun _ _ => Except.ok ⟨7⟩) Texture.exampleHost
          Texture.MainScene.zero (Driver.start ℚ)).2.calls.drop (Driver.start ℚ).calls.length)
        = [⟨0, 3, 32, 0⟩, ⟨1, 3, 32, 12⟩, ⟨2, 2, 32, 24⟩] ∧
      Packed (8 * 4) [⟨0, 3, 32, 0⟩, ⟨1, 3, 32, 12⟩, ⟨2, 2, 32, 24⟩] ∧
      uploadSizes BufferTarget.ARRAY_BUFFER
        ((Texture.OnEnter (fun _ _ => Except.ok ⟨7⟩) Texture.exampleHost
          Texture.MainScene.zero (Driver.start ℚ)).2.calls.drop (Driver.start ℚ).calls.length)
        = [4 * Texture.vertices.length] ∧
      4 * Texture.vertices.length = 4 * 32) :=
  vertex_layouts_exact (fun _ _ => Except.ok ⟨7⟩) Helloworld.MainScene.zero (Driver.start ℚ)
    ⟨7⟩ rfl (fun _ _ => Except.ok ⟨7⟩) Texture.exampleHost Texture.MainScene.zero
    (Driver.start ℚ) ⟨7⟩ rfl

end Layouts

namespace render

open gl

variable {α : Type}

theorem filter_ne_cons_fresh (l : List Handle) (x : Handle) (hx : x ∉ l) :
    (x :: l).filter (fun h => decide (h ≠ x)) = l := by
  rw [List.filter_cons_of_neg (by simp)]
  apply List.filter_eq_self.mpr
  intro a ha
  simp only [ne_eq, decide_not, Bool.not_eq_true', decide_eq_false_iff_not]
  rintro rfl
  exact hx ha

theorem filter_ne_cons_other (l : List Handle) (x y : Handle) (hxy : y ≠ x) (hx : x ∉ l) :
    (y :: x :: l).filter (fun h => decide (h ≠ x)) = y :: l := by
  rw [List.filter_cons_of_pos (by simpa using hxy), filter_ne_cons_fresh l x hx]

/-- C9 (on the model of `render.CreateShader` written from section 4.1): for
every pair of source texts and every driver that hands out fresh names, a
vertex-stage compile failure gives the compile error tagged `Vertex`, a
fragment-stage failure the one tagged `Fragment`, a link failure the link
error; whenever the build returns an error the set of live objects is exactly
what it was before the build, so every stage object (and the program object)
created on the way has been released; and when both stages compile and link,
the build returns the program handle, which is the only object it leaves
live: the two stage objects have been released. -/
theorem CreateShader_releases_on_every_path (c : Compiler) (vertexSource fragmentSource : String)
    (d : Driver α) (hf : d.Fresh) :
    (∀ log, c.compile Stage.Vertex vertexSource = Except.error log →
        (CreateShader c vertexSource fragmentSource d).1
          = Except.error (BuildError.CompileError Stage.Vertex log)) ∧
      (∀ log, c.compile Stage.Vertex vertexSource = Except.ok () →
        c.compile Stage.Fragment fragmentSource = Except.error log →
        (CreateShader c vertexSource fragmentSource d).1
          = Except.error (BuildError.CompileError Stage.Fragment log)) ∧
      (∀ log, c.compile Stage.Vertex vertexSource = Except.ok () →
        c.compile Stage.Fragment fragmentSource = Except.ok () →
        c.link vertexSource fragmentSource = Except.error log →
        (CreateShader c vertexSource fragmentSource d).1
          = Except.error (BuildError.LinkError log)) ∧
      (∀ e, (CreateShader c vertexSource fragmentSource d).1 = Except.error e →
        (CreateShader c vertexSource fragmentSource d).2.live = d.live) ∧
      (c.compile Stage.Vertex vertexSource = Except.ok () →
        c.compile Stage.Fragment fragmentSource = Except.ok () →
        c.link vertexSource fragmentSource = Except.ok () →
        ∃ prog, (CreateShader c vertexSource fragmentSource d).1 = Except.ok ⟨prog⟩ ∧
          (CreateShader c vertexSource fragmentSource d).2.live
            = ⟨Kind.program, prog⟩ :: d.live) := by
  obtain ⟨vs, hvs⟩ : ∃ vs, vs = d.fresh Kind.shader d.live := ⟨_, rfl⟩
  obtain ⟨fs, hfs⟩ : ∃ fs, fs = d.fresh Kind.shader (⟨Kind.shader, vs⟩ :: d.live) := ⟨_, rfl⟩
  obtain ⟨prog, hprog⟩ : ∃ prog, prog =
      d.fresh Kind.program (⟨Kind.shader, fs⟩ :: ⟨Kind.shader, vs⟩ :: d.live) := ⟨_, rfl⟩
  have hvs1 : (⟨Kind.shader, vs⟩ : Handle) ∉ d.live := by rw [hvs]; exact (hf _ _).1
  have hfs1 : (⟨Kind.shader, fs⟩ : Handle) ∉ ⟨Kind.shader, vs⟩ :: d.live := by
    rw [hfs]; exact (hf _ _).1
  have hfs2 : (⟨Kind.shader, fs⟩ : Handle) ∉ d.live := fun hm => hfs1 (List.mem_cons_of_mem _ hm)
  have hfv : (⟨Kind.shader, fs⟩ : Handle) ≠ ⟨Kind.shader, vs⟩ :=
    fun he => hfs1 (he ▸ List.mem_cons_self _ _)
  have hp1 : (⟨Kind.program, prog⟩ : Handle) ∉
      ⟨Kind.shader, fs⟩ :: ⟨Kind.shader, vs⟩ :: d.live := by rw [hprog]; exact (hf _ _).1
  have hpf : (⟨Kind.program, prog⟩ : Handle) ≠ ⟨Kind.shader, fs⟩ := by simp
  have hpv : (⟨Kind.program, prog⟩ : Handle) ≠ ⟨Kind.shader, vs⟩ := by simp
  have r1 : (⟨Kind.shader, vs⟩ :: d.live).filter (fun h => decide (h ≠ ⟨Kind.shader, vs⟩))
      = d.live := filter_ne_cons_fresh _ _ hvs1
  have r2 : (⟨Kind.shader, fs⟩ :: ⟨Kind.shader, vs⟩ :: d.live).filter
      (fun h => decide (h ≠ ⟨Kind.shader, fs⟩)) = ⟨Kind.shader, vs⟩ :: d.live :=
    filter_ne_cons_fresh _ _ hfs1
  have r3 : (⟨Kind.program, prog⟩ :: ⟨Kind.shader, fs⟩ :: ⟨Kind.shader, vs⟩ :: d.live).filter
      (fun h => decide (h ≠ ⟨Kind.program, prog⟩))
      = ⟨Kind.shader, fs⟩ :: ⟨Kind.shader, vs⟩ :: d.live := filter_ne_cons_fresh _ _ hp1
  have r4 : (⟨Kind.program, prog⟩ :: ⟨Kind.shader, fs⟩ :: ⟨Kind.shader, vs⟩ :: d.live).filter
      (fun h => decide (h ≠ ⟨Kind.shader, fs⟩))
      = ⟨Kind.program, prog⟩ :: ⟨Kind.shader, vs⟩ :: d.live :=
    filter_ne_cons_other _ _ _ hpf hfs1
  have r5 : (⟨Kind.program, prog⟩ :: ⟨Kind.shader, vs⟩ :: d.live).filter
      (fun h => decide (h ≠ ⟨Kind.shader, vs⟩)) = ⟨Kind.program, prog⟩ :: d.live :=
    filter_ne_cons_other _ _ _ hpv hvs1
  refine ⟨?_, ?_, ?_, ?_, ?_⟩
  · intro log h1
    simp [CreateShader, create, h1]
  · intro log h1 h2
    simp [CreateShader, create, h1, h2]
  · intro log h1 h2 h3
    simp [CreateShader, create, h1, h2, h3]
  · intro e he
    rcases h1 : c.compile Stage.Vertex vertexSource with log | u
    · simp only [CreateShader, create, release, h1, ← hvs, r1]
    · rcases h2 : c.compile Stage.Fragment fragmentSource with log | u2
      · simp only [CreateShader, create, release, h1, h2, ← hvs, ← hfs, r1, r2]
      · rcases h3 : c.link vertexSource fragmentSource with log | u3
        · simp only [CreateShader, create, release, h1, h2, h3, ← hvs, ← hfs, ← hprog, r1, r2,
            r3]
        · simp [CreateShader, create, h1, h2, h3] at he
  · intro h1 h2 h3
    refine ⟨prog, ?_, ?_⟩
    · simp [CreateShader, create, h1, h2, h3, hprog, hfs, hvs]
    · simp only [CreateShader, create, release, h1, h2, h3, ← hvs, ← hfs, ← hprog, r4, r5]

end render

namespace render

open gl

theorem CreateShader_releases_on_every_path_witness :
    (CreateShader rejectFragment Texture.vertexShaderSource Texture.fragmentShaderSource
          (Driver.start ℚ)).1
        = Except.error (BuildError.CompileError Stage.Fragment "0:1: syntax error") ∧
      (CreateShader rejectFragment Texture.vertexShaderSource Texture.fragmentShaderSource
          (Driver.start ℚ)).2.live = (Driver.start ℚ).live ∧
      ∃ prog, (CreateShader acceptAll Texture.vertexShaderSource Texture.fragmentShaderSource
            (Driver.start ℚ)).1 = Except.ok ⟨prog⟩ ∧
          (CreateShader acceptAll Texture.vertexShaderSource Texture.fragmentShaderSource
            (Driver.start ℚ)).2.live = ⟨Kind.program, prog⟩ :: (Driver.start ℚ).live :=
  ⟨(CreateShader_releases_on_every_path rejectFragment Texture.vertexShaderSource
      Texture.fragmentShaderSource (Driver.start ℚ) (start_fresh ℚ)).2.1 _ rfl rfl,
    (CreateShader_releases_on_every_path rejectFragment Texture.vertexShaderSource
      Texture.fragmentShaderSource (Driver.start ℚ) (start_fresh ℚ)).2.2.2.1 _ rfl,
    (CreateShader_releases_on_every_path acceptAll Texture.vertexShaderSource
      Texture.fragmentShaderSource (Driver.start ℚ) (start_fresh ℚ)).2.2.2.2 rfl rfl rfl⟩

end render

namespace Texture

open gl

/-- The same copy on a picture whose bounds start at (0,0): the 2 by 1
`examplePicture` is uploaded pixel for pixel, each pixel being the RGBA
conversion of the picture's pixel at that point. -/
theorem newTexture_copy_at_origin_example :
    uploadedPixels (newTexture exampleHost "assets/wall.jpg" (Driver.start ℚ)).2.calls =
        [[255, 0, 0, 255, 255, 117, 0, 255]] ∧
      color.RGBAModel (examplePicture.At 0 0) = ⟨255, 0, 0, 255⟩ ∧
      color.RGBAModel (examplePicture.At 1 0) = ⟨255, 117, 0, 255⟩ := by
  refine ⟨?_, ?_, ?_⟩ <;> decide

/-- C10, evaluated: for the 1 by 1 red picture with bounds (1,0)-(2,1), the
buffer allocated by `NewRGBA` is `[0,0,0,0]`; `draw.Draw` with source point
(0,0) clips the rectangle to nothing and returns the buffer unchanged; so the
buffer's pixel at (1,0), inside the picture's bounds, is (0,0,0,0) while the
RGBA conversion of the picture's pixel there is (255,0,0,255); and
`newTexture` uploads the four zero bytes. -/
theorem newTexture_copy_misses_offset_picture :
    (image.Point.In ⟨1, 0⟩ offsetPicture.Bounds = true) ∧
      image.NewRGBA offsetPicture.Bounds =
        Outcome.returned ⟨[0, 0, 0, 0], 4, ⟨⟨1, 0⟩, ⟨2, 1⟩⟩⟩ ∧
      draw.clip ⟨[0, 0, 0, 0], 4, ⟨⟨1, 0⟩, ⟨2, 1⟩⟩⟩ ⟨⟨1, 0⟩, ⟨2, 1⟩⟩ offsetPicture ⟨0, 0⟩ =
        (image.ZR, ⟨-1, 0⟩) ∧
      draw.Draw ⟨[0, 0, 0, 0], 4, ⟨⟨1, 0⟩, ⟨2, 1⟩⟩⟩ ⟨⟨1, 0⟩, ⟨2, 1⟩⟩ offsetPicture ⟨0, 0⟩ =
        Outcome.returned ⟨[0, 0, 0, 0], 4, ⟨⟨1, 0⟩, ⟨2, 1⟩⟩⟩ ∧
      image.RGBA.RGBAAt ⟨[0, 0, 0, 0], 4, ⟨⟨1, 0⟩, ⟨2, 1⟩⟩⟩ 1 0 =
        Outcome.returned ⟨0, 0, 0, 0⟩ ∧
      color.RGBAModel (offsetPicture.At 1 0) = ⟨255, 0, 0, 255⟩ ∧
      (newTexture offsetHost "assets/wall.jpg" (Driver.start ℚ)).1 =
        Outcome.returned (1, none) ∧
      uploadedPixels (newTexture offsetHost "assets/wall.jpg" (Driver.start ℚ)).2.calls =
        [[0, 0, 0, 0]] := by
  refine ⟨?_, ?_, ?_, ?_, ?_, ?_, ?_, ?_⟩ <;> decide

end Texture
